import Mathlib

/-!
Verification of the hass-bluelink-kr polling/refresh orchestration engine.

This file shallowly embeds the Python sources of the `bluelink_kr` custom
component (`const.py`, `api.py`, `views.py`, `__init__.py`) as executable Lean
definitions and proves the specified properties about them.

Modelling conventions:
 * wall-clock instants and durations are `Int` seconds (Python `datetime` /
   `timedelta`);
 * endpoint payloads are opaque (`Payload := Nat`), since no claim inspects
   their contents;
 * network I/O is an explicit oracle argument (`FetchOracle`, `TokenNet`,
   `RefreshNet`): each endpoint either returns a payload or raises;
 * Python falsiness of optional strings (`None` or `""`) is `falsyStr`;
 * a raised exception that a caller catches is an explicit error constructor;
   an uncaught exception propagating out of `_async_update_data` is
   `CycleResult.failed` (the code wraps it in `UpdateFailed`).
-/

namespace Bluelink

/-- An opaque endpoint payload; claims never inspect payload contents. -/
abbrev Payload := Nat

/-- Python falsiness of an optional string: `None` or the empty string. -/
def falsyStr : Option String → Bool
  | none => true
  | some s => s == ""

/-! ## const.py -/

/-- `BATTERY_INTERVAL = timedelta(minutes=5)` in seconds. -/
def BATTERY_INTERVAL : Int := 5 * 60

/-- `CHARGING_INTERVAL = timedelta(minutes=10)` in seconds. -/
def CHARGING_INTERVAL : Int := 10 * 60

/-- `DRIVING_RANGE_INTERVAL = timedelta(hours=1)` in seconds. -/
def DRIVING_RANGE_INTERVAL : Int := 60 * 60

/-- `WARNING_INTERVAL = timedelta(hours=1)` in seconds. -/
def WARNING_INTERVAL : Int := 60 * 60

/-- `ODOMETER_INTERVAL = timedelta(hours=1)` in seconds. -/
def ODOMETER_INTERVAL : Int := 60 * 60

/-- `ACCESS_TOKEN_DEFAULT_EXPIRES_IN = 60 * 60 * 24` (24 hours, seconds). -/
def ACCESS_TOKEN_DEFAULT_EXPIRES_IN : Int := 60 * 60 * 24

/-- `REFRESH_TOKEN_DEFAULT_EXPIRES_IN = 60 * 60 * 24 * 365` (1 year, seconds). -/
def REFRESH_TOKEN_DEFAULT_EXPIRES_IN : Int := 60 * 60 * 24 * 365

/-- `REFRESH_TOKEN_REAUTH_THRESHOLD_DAYS = 364`. -/
def REFRESH_TOKEN_REAUTH_THRESHOLD_DAYS : Int := 364

/-- `EV_CAPABLE_CAR_TYPES = {"EV", "PHEV", "FCEV"}`. -/
def EV_CAPABLE_CAR_TYPES : List String := ["EV", "PHEV", "FCEV"]

/-- Python `str.strip()`: drop leading and trailing whitespace. -/
def pyStrip (s : String) : String :=
  ⟨((s.data.dropWhile Char.isWhitespace).reverse.dropWhile Char.isWhitespace).reverse⟩

/-- Python `str.upper()`: uppercase every character. -/
def pyUpper (s : String) : String :=
  ⟨s.data.map Char.toUpper⟩

/-- `normalize_car_type`: `None`/`""` map to `None`; otherwise
`str(car_type).strip().upper()`. -/
def normalize_car_type : Option String → Option String
  | none => none
  | some s => if s == "" then none else some (pyUpper (pyStrip s))

/-- `is_ev_capable_car_type`: normalize the argument; an unknown (`None`)
normalized type counts as EV-capable, otherwise membership in
`EV_CAPABLE_CAR_TYPES`. -/
def is_ev_capable_car_type (carType : Option String) : Bool :=
  match normalize_car_type carType with
  | none => true
  | some n => EV_CAPABLE_CAR_TYPES.contains n

/-! ## Coordinator data model (`__init__.py`, `BluelinkCoordinator.__init__`) -/

/-- The fields of a car dict that the coordinator reads (`car.get("carType")`). -/
structure Car where
  carType : Option String
  deriving DecidableEq, Repr

/-- The credential/selection fields stored on `BluelinkCoordinator`. -/
structure Coordinator where
  client_id : String
  client_secret : String
  redirect_uri : String
  access_token : Option String
  refresh_token : Option String
  selected_car_id : Option String
  car : Option Car
  deriving DecidableEq, Repr

/-- `self.car_type = normalize_car_type(car.get("carType") if car else None)`. -/
def Coordinator.car_type (c : Coordinator) : Option String :=
  normalize_car_type (c.car.bind Car.carType)

/-- `self.is_ev_capable = is_ev_capable_car_type(self.car_type)`. -/
def Coordinator.is_ev_capable (c : Coordinator) : Bool :=
  is_ev_capable_car_type c.car_type

/-- The warnings dict assembled by `_async_fetch_warnings`; `engine_oil` is
`None` for pure-EV cars. An empty dict (no selected car) has every field
`none`. -/
structure Warnings where
  low_fuel : Option Payload
  tire_pressure : Option Payload
  lamp_wire : Option Payload
  smart_key_battery : Option Payload
  washer_fluid : Option Payload
  brake_oil : Option Payload
  engine_oil : Option Payload
  deriving DecidableEq, Repr

/-- The empty warnings dict returned when no car is selected. -/
def Warnings.empty : Warnings := ⟨none, none, none, none, none, none, none⟩

/-- The per-family poll state held on the coordinator: cached value and
last-fetched timestamp per metric family. -/
structure PollState where
  driving_range : Option Payload
  last_driving_range : Option Int
  battery_status : Option Payload
  last_battery_status : Option Int
  charging_status : Option Payload
  last_charging_status : Option Int
  odometer : Option Payload
  last_odometer : Option Int
  warnings : Option Warnings
  last_warnings : Option Int
  deriving DecidableEq, Repr

/-- The fresh poll state created by `BluelinkCoordinator.__init__`. -/
def PollState.initial : PollState :=
  ⟨none, none, none, none, none, none, none, none, none, none⟩

/-- `_should_fetch(last, interval, now)`: fetch if never fetched or the
interval has elapsed. -/
def _should_fetch (last : Option Int) (interval : Int) (now : Int) : Bool :=
  match last with
  | none => true
  | some l => decide (interval ≤ now - l)

/-- The vendor status endpoints the coordinator can call in a cycle. -/
inductive Endpoint where
  | drivingRange
  | battery
  | charging
  | odometer
  | lowFuel
  | tirePressure
  | lampWire
  | smartKeyBattery
  | washerFluid
  | brakeOil
  | engineOil
  deriving DecidableEq, Repr

/-- Result of one endpoint call: a parsed payload, or a raised
`BluelinkAuthError` with its message. -/
inductive FetchResult where
  | ok (p : Payload)
  | fail (msg : String)
  deriving DecidableEq, Repr

/-- Whether the call succeeded. -/
def FetchResult.isOk : FetchResult → Bool
  | .ok _ => true
  | .fail _ => false

/-- One cycle's network behaviour: what each endpoint would return if called. -/
structure FetchOracle where
  drivingRange : FetchResult
  battery : FetchResult
  charging : FetchResult
  odometer : FetchResult
  lowFuel : FetchResult
  tirePressure : FetchResult
  lampWire : FetchResult
  smartKeyBattery : FetchResult
  washerFluid : FetchResult
  brakeOil : FetchResult
  engineOil : FetchResult
  deriving DecidableEq, Repr

/-- The oracle's answer for a given endpoint. -/
def FetchOracle.answer (o : FetchOracle) : Endpoint → FetchResult
  | .drivingRange => o.drivingRange
  | .battery => o.battery
  | .charging => o.charging
  | .odometer => o.odometer
  | .lowFuel => o.lowFuel
  | .tirePressure => o.tirePressure
  | .lampWire => o.lampWire
  | .smartKeyBattery => o.smartKeyBattery
  | .washerFluid => o.washerFluid
  | .brakeOil => o.brakeOil
  | .engineOil => o.engineOil

/-- Every endpoint call in this cycle would succeed. -/
def FetchOracle.allOk (o : FetchOracle) : Bool :=
  o.drivingRange.isOk && o.battery.isOk && o.charging.isOk && o.odometer.isOk &&
  o.lowFuel.isOk && o.tirePressure.isOk && o.lampWire.isOk &&
  o.smartKeyBattery.isOk && o.washerFluid.isOk && o.brakeOil.isOk &&
  o.engineOil.isOk

/-- An oracle answering `p` on every endpoint (used for concrete runs). -/
def FetchOracle.const (p : Payload) : FetchOracle :=
  ⟨.ok p, .ok p, .ok p, .ok p, .ok p, .ok p, .ok p, .ok p, .ok p, .ok p, .ok p⟩

/-- Outcome of one family step inside a cycle: the updated poll state and the
endpoint calls made so far, or an abort (raised exception) carrying the state
at the moment of the raise. In Python the raise leaves earlier `self._...`
assignments in place, so the abort carries the mutated state. -/
inductive StepOut where
  | ok (s : PollState) (calls : List Endpoint)
  | abort (msg : String) (s : PollState) (calls : List Endpoint)
  deriving DecidableEq, Repr

/-- Outcome of `_async_fetch_warnings`: the warnings dict, or an abort. -/
inductive WarnOut where
  | ok (w : Warnings) (calls : List Endpoint)
  | abort (msg : String) (calls : List Endpoint)
  deriving DecidableEq, Repr

/-- `_async_fetch_warnings`: returns the empty dict when no car is selected,
otherwise fetches the six always-on warnings in order and `engine_oil` only
when `self.car_type != "EV"`. Any raising call aborts the whole bundle. -/
def _async_fetch_warnings (c : Coordinator) (o : FetchOracle)
    (calls : List Endpoint) : WarnOut :=
  if falsyStr c.selected_car_id then .ok Warnings.empty calls
  else
    match o.lowFuel with
    | .fail m => .abort m (calls ++ [.lowFuel])
    | .ok p1 =>
      match o.tirePressure with
      | .fail m => .abort m (calls ++ [.lowFuel, .tirePressure])
      | .ok p2 =>
        match o.lampWire with
        | .fail m => .abort m (calls ++ [.lowFuel, .tirePressure, .lampWire])
        | .ok p3 =>
          match o.smartKeyBattery with
          | .fail m =>
            .abort m (calls ++ [.lowFuel, .tirePressure, .lampWire, .smartKeyBattery])
          | .ok p4 =>
            match o.washerFluid with
            | .fail m =>
              .abort m (calls ++
                [.lowFuel, .tirePressure, .lampWire, .smartKeyBattery, .washerFluid])
            | .ok p5 =>
              match o.brakeOil with
              | .fail m =>
                .abort m (calls ++
                  [.lowFuel, .tirePressure, .lampWire, .smartKeyBattery,
                   .washerFluid, .brakeOil])
              | .ok p6 =>
                if c.car_type == some "EV" then
                  .ok ⟨some p1, some p2, some p3, some p4, some p5, some p6, none⟩
                    (calls ++
                      [.lowFuel, .tirePressure, .lampWire, .smartKeyBattery,
                       .washerFluid, .brakeOil])
                else
                  match o.engineOil with
                  | .fail m =>
                    .abort m (calls ++
                      [.lowFuel, .tirePressure, .lampWire, .smartKeyBattery,
                       .washerFluid, .brakeOil, .engineOil])
                  | .ok p7 =>
                    .ok ⟨some p1, some p2, some p3, some p4, some p5, some p6, some p7⟩
                      (calls ++
                        [.lowFuel, .tirePressure, .lampWire, .smartKeyBattery,
                         .washerFluid, .brakeOil, .engineOil])

/-- Driving-range branch of `_async_update_data`. -/
def drivingRangeStep (o : FetchOracle) (now : Int) (s : PollState)
    (calls : List Endpoint) : StepOut :=
  if _should_fetch s.last_driving_range DRIVING_RANGE_INTERVAL now then
    match o.drivingRange with
    | .ok p =>
      .ok { s with driving_range := some p, last_driving_range := some now }
        (calls ++ [.drivingRange])
    | .fail m => .abort m s (calls ++ [.drivingRange])
  else .ok s calls

/-- Battery branch of `_async_update_data` (EV-gated). -/
def batteryStep (c : Coordinator) (o : FetchOracle) (now : Int) (s : PollState)
    (calls : List Endpoint) : StepOut :=
  if c.is_ev_capable && _should_fetch s.last_battery_status BATTERY_INTERVAL now then
    match o.battery with
    | .ok p =>
      .ok { s with battery_status := some p, last_battery_status := some now }
        (calls ++ [.battery])
    | .fail m => .abort m s (calls ++ [.battery])
  else .ok s calls

/-- Charging branch of `_async_update_data` (EV-gated); the `elif` clears the
charging and battery caches for non-EV-capable cars. -/
def chargingStep (c : Coordinator) (o : FetchOracle) (now : Int) (s : PollState)
    (calls : List Endpoint) : StepOut :=
  if c.is_ev_capable && _should_fetch s.last_charging_status CHARGING_INTERVAL now then
    match o.charging with
    | .ok p =>
      .ok { s with charging_status := some p, last_charging_status := some now }
        (calls ++ [.charging])
    | .fail m => .abort m s (calls ++ [.charging])
  else if !c.is_ev_capable then
    .ok { s with charging_status := none, last_charging_status := none,
                 battery_status := none, last_battery_status := none } calls
  else .ok s calls

/-- Odometer branch of `_async_update_data`. -/
def odometerStep (o : FetchOracle) (now : Int) (s : PollState)
    (calls : List Endpoint) : StepOut :=
  if _should_fetch s.last_odometer ODOMETER_INTERVAL now then
    match o.odometer with
    | .ok p =>
      .ok { s with odometer := some p, last_odometer := some now }
        (calls ++ [.odometer])
    | .fail m => .abort m s (calls ++ [.odometer])
  else .ok s calls

/-- Warnings branch of `_async_update_data`. -/
def warningsStep (c : Coordinator) (o : FetchOracle) (now : Int) (s : PollState)
    (calls : List Endpoint) : StepOut :=
  if _should_fetch s.last_warnings WARNING_INTERVAL now then
    match _async_fetch_warnings c o calls with
    | .abort m calls' => .abort m s calls'
    | .ok w calls' =>
      .ok { s with warnings := some w, last_warnings := some now } calls'
  else .ok s calls

/-- The unified snapshot dict returned by a cycle. -/
structure Snapshot where
  driving_range : Option Payload
  charging_status : Option Payload
  battery_status : Option Payload
  odometer : Option Payload
  warnings : Option Warnings
  car : Option Car
  selected_car_id : Option String
  client_id : String
  redirect_uri : String
  access_token : Option String
  deriving DecidableEq, Repr

/-- Assemble the snapshot dict from the coordinator and poll state. -/
def mkSnapshot (c : Coordinator) (s : PollState) : Snapshot :=
  ⟨s.driving_range, s.charging_status, s.battery_status, s.odometer, s.warnings,
   c.car, c.selected_car_id, c.client_id, c.redirect_uri, c.access_token⟩

/-- Outcome of one cycle: a published snapshot, or a failure (`UpdateFailed`),
in both cases with the final poll state and the endpoint calls made. -/
inductive CycleResult where
  | ok (s : PollState) (calls : List Endpoint) (snap : Snapshot)
  | failed (msg : String) (s : PollState) (calls : List Endpoint)
  deriving DecidableEq, Repr

/-- The endpoint calls a cycle made, regardless of outcome. -/
def CycleResult.callsMade : CycleResult → List Endpoint
  | .ok _ calls _ => calls
  | .failed _ _ calls => calls

/-- The final poll state of a cycle, regardless of outcome. -/
def CycleResult.finalState : CycleResult → PollState
  | .ok s _ _ => s
  | .failed _ s _ => s

/-- `BluelinkCoordinator._async_update_data`: guard on credentials/selection,
then the five family branches in source order; any raise fails the whole cycle
as `UpdateFailed`, leaving the assignments made before the raise in place. -/
def _async_update_data (c : Coordinator) (o : FetchOracle) (now : Int)
    (s : PollState) : CycleResult :=
  if falsyStr c.access_token || falsyStr c.selected_car_id then
    .failed "Missing access token or selected car" s []
  else
    match drivingRangeStep o now s [] with
    | .abort m s1 l1 => .failed m s1 l1
    | .ok s1 l1 =>
      match batteryStep c o now s1 l1 with
      | .abort m s2 l2 => .failed m s2 l2
      | .ok s2 l2 =>
        match chargingStep c o now s2 l2 with
        | .abort m s3 l3 => .failed m s3 l3
        | .ok s3 l3 =>
          match odometerStep o now s3 l3 with
          | .abort m s4 l4 => .failed m s4 l4
          | .ok s4 l4 =>
            match warningsStep c o now s4 l4 with
            | .abort m s5 l5 => .failed m s5 l5
            | .ok s5 l5 => .ok s5 l5 (mkSnapshot c s5)

/-- Tail of `async_force_refresh` after the EV-gated block: odometer, the
warnings bundle, then stamping the driving-range clock and publishing. -/
def forceRefreshTail (c : Coordinator) (o : FetchOracle) (now : Int)
    (s : PollState) (calls : List Endpoint) : CycleResult :=
  match o.odometer with
  | .fail m => .failed m s (calls ++ [.odometer])
  | .ok po =>
    let s1 := { s with odometer := some po, last_odometer := some now }
    match _async_fetch_warnings c o (calls ++ [.odometer]) with
    | .abort m calls' => .failed m s1 calls'
    | .ok w calls' =>
      let s2 := { s1 with warnings := some w, last_warnings := some now,
                          last_driving_range := some now }
      .ok s2 calls' (mkSnapshot c s2)

/-- `BluelinkCoordinator.async_force_refresh`: unconditional sequential
re-fetch of every capability-appropriate family, stamping each applicable
family's last-fetched time with the single `now` captured at entry, clearing
the EV families for non-EV-capable cars, and publishing the snapshot. -/
def async_force_refresh (c : Coordinator) (o : FetchOracle) (now : Int)
    (s : PollState) : CycleResult :=
  if falsyStr c.access_token || falsyStr c.selected_car_id then
    .failed "Missing access token or selected car" s []
  else
    match o.drivingRange with
    | .fail m => .failed m s [.drivingRange]
    | .ok pdr =>
      let s1 := { s with driving_range := some pdr }
      if c.is_ev_capable then
        match o.battery with
        | .fail m => .failed m s1 [.drivingRange, .battery]
        | .ok pb =>
          let s2 := { s1 with battery_status := some pb,
                              last_battery_status := some now }
          match o.charging with
          | .fail m => .failed m s2 [.drivingRange, .battery, .charging]
          | .ok pc =>
            forceRefreshTail c o now
              { s2 with charging_status := some pc,
                        last_charging_status := some now }
              [.drivingRange, .battery, .charging]
      else
        forceRefreshTail c o now
          { s1 with charging_status := none, battery_status := none,
                    last_battery_status := none, last_charging_status := none }
          [.drivingRange]

/-! ## Derived views of cycle outcomes and success-path specifications -/

/-- The poll state carried by a step outcome. -/
def StepOut.state : StepOut → PollState
  | .ok s _ => s
  | .abort _ s _ => s

/-- The calls list carried by a step outcome. -/
def StepOut.callsOf : StepOut → List Endpoint
  | .ok _ l => l
  | .abort _ _ l => l

/-- The calls list carried by a warnings-bundle outcome. -/
def WarnOut.callsOf : WarnOut → List Endpoint
  | .ok _ l => l
  | .abort _ l => l

/-- The payload of a successful fetch (junk value on failure). -/
def FetchResult.payload : FetchResult → Payload
  | .ok p => p
  | .fail _ => 0

/-- The warning endpoints a full warnings bundle calls for this car:
`engine_oil` is skipped exactly for pure-EV cars. -/
def warnEndpoints (c : Coordinator) : List Endpoint :=
  if c.car_type == some "EV" then
    [.lowFuel, .tirePressure, .lampWire, .smartKeyBattery, .washerFluid, .brakeOil]
  else
    [.lowFuel, .tirePressure, .lampWire, .smartKeyBattery, .washerFluid, .brakeOil,
     .engineOil]

/-- The warnings dict a fully successful bundle produces. -/
def warnValue (c : Coordinator) (o : FetchOracle) : Warnings :=
  ⟨some o.lowFuel.payload, some o.tirePressure.payload, some o.lampWire.payload,
   some o.smartKeyBattery.payload, some o.washerFluid.payload,
   some o.brakeOil.payload,
   if c.car_type == some "EV" then none else some o.engineOil.payload⟩

/-- The endpoint calls an all-successful incremental cycle makes. -/
def specCalls (c : Coordinator) (now : Int) (s : PollState) : List Endpoint :=
  (if _should_fetch s.last_driving_range DRIVING_RANGE_INTERVAL now then
    [.drivingRange] else []) ++
  (if c.is_ev_capable && _should_fetch s.last_battery_status BATTERY_INTERVAL now then
    [.battery] else []) ++
  (if c.is_ev_capable && _should_fetch s.last_charging_status CHARGING_INTERVAL now then
    [.charging] else []) ++
  (if _should_fetch s.last_odometer ODOMETER_INTERVAL now then [.odometer] else []) ++
  (if _should_fetch s.last_warnings WARNING_INTERVAL now then warnEndpoints c else [])

/-- The poll state an all-successful incremental cycle ends in. -/
def specState (c : Coordinator) (o : FetchOracle) (now : Int) (s : PollState) :
    PollState :=
  { driving_range :=
      if _should_fetch s.last_driving_range DRIVING_RANGE_INTERVAL now then
        some o.drivingRange.payload else s.driving_range
    last_driving_range :=
      if _should_fetch s.last_driving_range DRIVING_RANGE_INTERVAL now then
        some now else s.last_driving_range
    battery_status :=
      if c.is_ev_capable && _should_fetch s.last_battery_status BATTERY_INTERVAL now then
        some o.battery.payload else if !c.is_ev_capable then none else s.battery_status
    last_battery_status :=
      if c.is_ev_capable && _should_fetch s.last_battery_status BATTERY_INTERVAL now then
        some now else if !c.is_ev_capable then none else s.last_battery_status
    charging_status :=
      if c.is_ev_capable && _should_fetch s.last_charging_status CHARGING_INTERVAL now then
        some o.charging.payload else if !c.is_ev_capable then none else s.charging_status
    last_charging_status :=
      if c.is_ev_capable && _should_fetch s.last_charging_status CHARGING_INTERVAL now then
        some now else if !c.is_ev_capable then none else s.last_charging_status
    odometer :=
      if _should_fetch s.last_odometer ODOMETER_INTERVAL now then
        some o.odometer.payload else s.odometer
    last_odometer :=
      if _should_fetch s.last_odometer ODOMETER_INTERVAL now then
        some now else s.last_odometer
    warnings :=
      if _should_fetch s.last_warnings WARNING_INTERVAL now then
        some (warnValue c o) else s.warnings
    last_warnings :=
      if _should_fetch s.last_warnings WARNING_INTERVAL now then
        some now else s.last_warnings }

/-- The endpoint calls an all-successful forced full refresh makes. -/
def forceCalls (c : Coordinator) : List Endpoint :=
  (if c.is_ev_capable then [.drivingRange, .battery, .charging] else [.drivingRange]) ++
  [.odometer] ++ warnEndpoints c

/-- The poll state an all-successful forced full refresh ends in. -/
def forceState (c : Coordinator) (o : FetchOracle) (now : Int) : PollState :=
  { driving_range := some o.drivingRange.payload
    last_driving_range := some now
    battery_status := if c.is_ev_capable then some o.battery.payload else none
    last_battery_status := if c.is_ev_capable then some now else none
    charging_status := if c.is_ev_capable then some o.charging.payload else none
    last_charging_status := if c.is_ev_capable then some now else none
    odometer := some o.odometer.payload
    last_odometer := some now
    warnings := some (warnValue c o)
    last_warnings := some now }

/-- The fetch-policy condition in the spec's wording: the timestamp is unset,
or at least `interval` has elapsed since it. -/
def dueP (last : Option Int) (interval now : Int) : Prop :=
  last = none ∨ ∃ l, last = some l ∧ interval ≤ now - l

/-- How a family's cache may legally evolve across one cycle: kept unchanged,
replaced by a successfully fetched payload stamped `now`, or (EV families on a
non-EV-capable car only) cleared. -/
def cacheEvolution (c : Coordinator) (o : FetchOracle) (now : Int)
    (s s' : PollState) : Prop :=
  ((s'.driving_range = s.driving_range ∧
    s'.last_driving_range = s.last_driving_range) ∨
    ∃ p, o.drivingRange = .ok p ∧ s'.driving_range = some p ∧
      s'.last_driving_range = some now) ∧
  ((s'.battery_status = s.battery_status ∧
    s'.last_battery_status = s.last_battery_status) ∨
    (∃ p, o.battery = .ok p ∧ s'.battery_status = some p ∧
      s'.last_battery_status = some now) ∨
    (c.is_ev_capable = false ∧ s'.battery_status = none ∧
      s'.last_battery_status = none)) ∧
  ((s'.charging_status = s.charging_status ∧
    s'.last_charging_status = s.last_charging_status) ∨
    (∃ p, o.charging = .ok p ∧ s'.charging_status = some p ∧
      s'.last_charging_status = some now) ∨
    (c.is_ev_capable = false ∧ s'.charging_status = none ∧
      s'.last_charging_status = none)) ∧
  ((s'.odometer = s.odometer ∧ s'.last_odometer = s.last_odometer) ∨
    ∃ p, o.odometer = .ok p ∧ s'.odometer = some p ∧
      s'.last_odometer = some now) ∧
  ((s'.warnings = s.warnings ∧ s'.last_warnings = s.last_warnings) ∨
    ∃ w l₀ l, _async_fetch_warnings c o l₀ = .ok w l ∧
      s'.warnings = some w ∧ s'.last_warnings = some now)

/-! ## views.py — `BluelinkUnifiedCallbackView.get` -/

/-- Query parameters of a callback request. Absent parameter is `none`. -/
structure Query where
  code : Option String
  state : Option String
  userId : Option String
  errCode : Option String
  errMsg : Option String
  deriving DecidableEq, Repr

/-- A state-token map (`state → flow_id`), modelled as an association list
with unique keys, insertion-ordered like a Python dict. -/
abbrev StateMap := List (String × String)

/-- Dict key lookup. -/
def lookupState (m : StateMap) (k : String) : Option String :=
  match m.find? (fun p => p.1 == k) with
  | some p => some p.2
  | none => none

/-- Dict `pop`-style key removal. -/
def removeState (m : StateMap) (k : String) : StateMap :=
  m.filter (fun p => !(p.1 == k))

/-- Dict `setdefault`: insert only when the key is absent. -/
def setdefaultState (m : StateMap) (k v : String) : StateMap :=
  if (lookupState m k).isSome then m else m ++ [(k, v)]

/-- Dict assignment `m[k] = v`. -/
def insertState (m : StateMap) (k v : String) : StateMap :=
  if (lookupState m k).isSome then
    m.map (fun p => if p.1 == k then (k, v) else p)
  else m ++ [(k, v)]

/-- The three process-wide state maps in `hass.data[DOMAIN]`. -/
structure DomainData where
  callback_states : StateMap
  oauth_states : StateMap
  terms_states : StateMap
  deriving DecidableEq, Repr

/-- The distinct responses `BluelinkUnifiedCallbackView.get` can produce. -/
inductive Resp where
  | noActiveFlow
  | termsFailed
  | missingAuthorization
  | flowNotReady
  | authorized
  deriving DecidableEq, Repr

/-- Result of handling one callback: the response, the updated maps, and the
flow-configure calls made (`(flow_id, authorization)`). -/
structure HandlerResult where
  resp : Resp
  data : DomainData
  configured : List (String × String)
  deriving DecidableEq, Repr

/-- `BluelinkUnifiedCallbackView.get`: migrate legacy maps into the unified
map when it is empty, reject absent/unknown state, pop the state on lookup,
answer the terms-error path, require an authorization value, resume the flow,
and restore the state token if the flow raises `ValueError`.
`flowAccepts flow_id authorization` tells whether `flow.async_configure`
succeeds (`false` = raises `ValueError`). -/
def handleCallback (d : DomainData) (q : Query)
    (flowAccepts : String → String → Bool) : HandlerResult :=
  let cs0 := d.callback_states
  let cs :=
    if cs0.isEmpty && (!d.oauth_states.isEmpty || !d.terms_states.isEmpty) then
      d.terms_states.foldl (fun m p => setdefaultState m p.1 p.2)
        (d.oauth_states.foldl (fun m p => setdefaultState m p.1 p.2) cs0)
    else cs0
  if falsyStr q.state then ⟨.noActiveFlow, { d with callback_states := cs }, []⟩
  else
    let st := q.state.getD ""
    match lookupState cs st with
    | none => ⟨.noActiveFlow, { d with callback_states := cs }, []⟩
    | some flow_id =>
      let cs1 := removeState cs st
      if !falsyStr q.errCode then
        ⟨.termsFailed, { d with callback_states := cs1 }, []⟩
      else
        match (if falsyStr q.code then q.userId else q.code) with
        | none => ⟨.missingAuthorization, { d with callback_states := cs1 }, []⟩
        | some a =>
          if a == "" then
            ⟨.missingAuthorization, { d with callback_states := cs1 }, []⟩
          else if flowAccepts flow_id a then
            ⟨.authorized, { d with callback_states := cs1 }, [(flow_id, a)]⟩
          else
            ⟨.flowNotReady,
              { d with callback_states := insertState cs1 st flow_id },
              [(flow_id, a)]⟩

/-! ## api.py — `async_request_token` -/

/-- Validation outcome of the grant-type dispatch (lines 80–96): either the
form data to post, or an immediate `BluelinkAuthError` before any request. -/
inductive GrantCheck where
  | proceed (data : List (String × String))
  | authError (msg : String)
  deriving DecidableEq, Repr

/-- The grant-type dispatch of `async_request_token` before the HTTP post. -/
def validate_grant (grant_type : String)
    (code refresh_token access_token redirect_uri : Option String) : GrantCheck :=
  if grant_type == "authorization_code" then
    if falsyStr code then .authError "Missing authorization code"
    else
      .proceed ([("grant_type", grant_type), ("code", code.getD "")] ++
        (if falsyStr redirect_uri then [] else [("redirect_uri", redirect_uri.getD "")]))
  else if grant_type == "refresh_token" then
    if falsyStr refresh_token then .authError "Missing refresh_token"
    else .proceed [("grant_type", grant_type), ("refresh_token", refresh_token.getD "")]
  else if grant_type == "delete" then
    if falsyStr access_token then .authError "Missing access_token for deletion"
    else .proceed [("grant_type", grant_type), ("access_token", access_token.getD "")]
  else .authError ("Unsupported grant_type: " ++ grant_type)

/-- The fields of a vendor token response body that the code reads.
`refresh_token` distinguishes an absent key (`none`) from a present key whose
value may be JSON `null` (`some none`). -/
structure TokenPayload where
  access_token : Option String
  refresh_token : Option (Option String)
  token_type : Option String
  expires_in : Option Int
  errCode : Option String
  errMsg : Option String
  deriving DecidableEq, Repr

/-- Network behaviour of the token endpoint for one call. -/
inductive TokenNet where
  | transportError (msg : String)
  | parseError (body : String)
  | response (status : Nat) (payload : TokenPayload)
  deriving DecidableEq, Repr

/-- The `TokenResult` dataclass; expiry instants as `Int` seconds. -/
structure TokenResult where
  access_token : String
  refresh_token : Option String
  token_type : Option String
  access_token_expires_at : Int
  refresh_token_expires_at : Option Int
  deriving DecidableEq, Repr

/-- What `async_request_token` produced: a `TokenResult` or a raised
`BluelinkAuthError`. -/
inductive TokenOutcome where
  | authError (msg : String)
  | ok (r : TokenResult)
  deriving DecidableEq, Repr

/-- One call to `async_request_token`: its outcome and whether the HTTP
request was actually issued. -/
structure TokenCall where
  outcome : TokenOutcome
  networkCalled : Bool
  deriving DecidableEq, Repr

/-- `async_request_token`: grant validation, HTTP post, error mapping, and the
success postprocessing computing the result tokens and expiry instants. -/
def async_request_token (grant_type : String)
    (code refresh_token access_token redirect_uri : Option String)
    (net : TokenNet) (now : Int) : TokenCall :=
  match validate_grant grant_type code refresh_token access_token redirect_uri with
  | .authError m => ⟨.authError m, false⟩
  | .proceed _data =>
    match net with
    | .transportError m => ⟨.authError ("Token request failed: " ++ m), true⟩
    | .parseError body =>
      ⟨.authError ("Token response parse failed; body=" ++ body), true⟩
    | .response status p =>
      if status ≠ 200 || p.errCode.isSome then
        ⟨.authError "Token request failed (errCode or non-200)", true⟩
      else
        match p.access_token with
        | none => ⟨.authError "Token response missing access_token", true⟩
        | some atv =>
          if atv == "" then ⟨.authError "Token response missing access_token", true⟩
          else
            let refresh_token_value : Option String :=
              match p.refresh_token with
              | none => refresh_token
              | some v => v
            let expires_in := p.expires_in.getD ACCESS_TOKEN_DEFAULT_EXPIRES_IN
            let access_expires_at := now + expires_in
            let refresh_expires_at : Option Int :=
              if falsyStr refresh_token_value then none
              else some (now + REFRESH_TOKEN_DEFAULT_EXPIRES_IN)
            ⟨.ok ⟨atv, refresh_token_value, p.token_type, access_expires_at,
                  refresh_expires_at⟩, true⟩

/-! ## `__init__.py` — scheduled token refresh and reauth evaluation -/

/-- The auth-related config-entry data fields the refresh task touches. -/
structure EntryData where
  access_token : Option String
  refresh_token : Option String
  token_type : Option String
  access_token_expires_at : Option Int
  refresh_token_expires_at : Option Int
  deriving DecidableEq, Repr

/-- The token fields `update_tokens` swaps on the coordinator. -/
structure CoordTokens where
  access_token : Option String
  refresh_token : Option String
  deriving DecidableEq, Repr

/-- Network behaviour of the refresh-grant token call. -/
inductive RefreshNet where
  | authError (msg : String)
  | ok (r : TokenResult)
  deriving DecidableEq, Repr

/-- Result of one scheduled refresh attempt. The function is total: a vendor
rejection is caught and swallowed (logged only), never escalated. -/
structure RefreshOutcome where
  entry : EntryData
  coord : CoordTokens
  networkCalled : Bool
  deriving DecidableEq, Repr

/-- `_setup_token_refresh._async_refresh_tokens`: no-op without a refresh
token; on vendor rejection leave everything untouched; on success build
`new_data` with Python `or`-fallbacks, persist it, and push the tokens to the
coordinator via `update_tokens`. -/
def _async_refresh_tokens (entry : EntryData) (coord : CoordTokens)
    (net : RefreshNet) : RefreshOutcome :=
  if falsyStr coord.refresh_token then ⟨entry, coord, false⟩
  else
    match net with
    | .authError _ => ⟨entry, coord, true⟩
    | .ok r =>
      let new_refresh : Option String :=
        if falsyStr r.refresh_token then coord.refresh_token else r.refresh_token
      let new_token_type : Option String :=
        if falsyStr r.token_type then some (entry.token_type.getD "Bearer")
        else r.token_type
      let new_refresh_expires : Option Int :=
        match r.refresh_token_expires_at with
        | none => entry.refresh_token_expires_at
        | some t => some t
      let new_entry : EntryData :=
        ⟨some r.access_token, new_refresh, new_token_type,
         some r.access_token_expires_at, new_refresh_expires⟩
      ⟨new_entry, ⟨new_entry.access_token, new_entry.refresh_token⟩, true⟩

/-- Host-visible effects of one `_maybe_request_reauth` evaluation. -/
structure ReauthResult where
  notificationsCreated : List String
  flowsStarted : List String
  notified : List String
  deriving DecidableEq, Repr

/-- `_maybe_request_reauth`: bail out on a missing or unparseable
`refresh_token_expires_at`; otherwise compute `issued_at` and the 364-day
threshold; at or past it, emit one notification and start one reauth flow
unless the entry id is already in the persisted notified set.
`parseDatetime` models `dt_util.parse_datetime` (`none` = unparseable). -/
def _maybe_request_reauth (parseDatetime : String → Option Int)
    (refresh_token_expires_at : Option String) (entry_id : String)
    (notified : List String) (now : Int) : ReauthResult :=
  if falsyStr refresh_token_expires_at then ⟨[], [], notified⟩
  else
    match parseDatetime (refresh_token_expires_at.getD "") with
    | none => ⟨[], [], notified⟩
    | some parsed =>
      let issued_at := parsed - REFRESH_TOKEN_DEFAULT_EXPIRES_IN
      let threshold := issued_at + REFRESH_TOKEN_REAUTH_THRESHOLD_DAYS * 86400
      if now ≥ threshold then
        if notified.contains entry_id then ⟨[], [], notified⟩
        else ⟨[entry_id], [entry_id], notified ++ [entry_id]⟩
      else ⟨[], [], notified⟩

/-! ## Helper lemmas -/

lemma FetchResult.isOk_iff {r : FetchResult} : r.isOk = true ↔ ∃ p, r = .ok p := by
  cases r <;> simp [FetchResult.isOk]

lemma allOk_split {o : FetchOracle} (h : o.allOk = true) :
    (∃ p, o.drivingRange = .ok p) ∧ (∃ p, o.battery = .ok p) ∧
    (∃ p, o.charging = .ok p) ∧ (∃ p, o.odometer = .ok p) ∧
    (∃ p, o.lowFuel = .ok p) ∧ (∃ p, o.tirePressure = .ok p) ∧
    (∃ p, o.lampWire = .ok p) ∧ (∃ p, o.smartKeyBattery = .ok p) ∧
    (∃ p, o.washerFluid = .ok p) ∧ (∃ p, o.brakeOil = .ok p) ∧
    (∃ p, o.engineOil = .ok p) := by
  simp only [FetchOracle.allOk, Bool.and_eq_true, FetchResult.isOk_iff] at h
  tauto

lemma should_fetch_iff {last : Option Int} {interval now : Int} :
    _should_fetch last interval now = true ↔ dueP last interval now := by
  cases last <;> simp [_should_fetch, dueP]

lemma fetch_warnings_allOk {c : Coordinator} {o : FetchOracle}
    (calls : List Endpoint) (hcar : falsyStr c.selected_car_id = false)
    (hok : o.allOk = true) :
    _async_fetch_warnings c o calls = .ok (warnValue c o) (calls ++ warnEndpoints c) := by
  obtain ⟨⟨p1, h1⟩, ⟨p2, h2⟩, ⟨p3, h3⟩, ⟨p4, h4⟩, ⟨p5, h5⟩, ⟨p6, h6⟩, ⟨p7, h7⟩,
    ⟨p8, h8⟩, ⟨p9, h9⟩, ⟨p10, h10⟩, ⟨p11, h11⟩⟩ := allOk_split hok
  unfold _async_fetch_warnings warnEndpoints warnValue
  rw [hcar, h5, h6, h7, h8, h9, h10]
  by_cases hev : c.car_type == some "EV" <;>
    simp [hev, h11, FetchResult.payload, h5, h6, h7, h8, h9, h10]

set_option maxHeartbeats 1600000 in
lemma update_data_allOk {c : Coordinator} {o : FetchOracle} {now : Int}
    {s : PollState} (htok : falsyStr c.access_token = false)
    (hcar : falsyStr c.selected_car_id = false) (hok : o.allOk = true) :
    _async_update_data c o now s =
      .ok (specState c o now s) (specCalls c now s)
        (mkSnapshot c (specState c o now s)) := by
  obtain ⟨⟨p1, h1⟩, ⟨p2, h2⟩, ⟨p3, h3⟩, ⟨p4, h4⟩, _⟩ := allOk_split hok
  have hw := fun calls => fetch_warnings_allOk (c := c) (o := o) calls hcar hok
  unfold _async_update_data drivingRangeStep batteryStep chargingStep odometerStep
    warningsStep
  rw [htok, hcar]
  by_cases fdr : _should_fetch s.last_driving_range DRIVING_RANGE_INTERVAL now = true <;>
  by_cases fb : _should_fetch s.last_battery_status BATTERY_INTERVAL now = true <;>
  by_cases fc : _should_fetch s.last_charging_status CHARGING_INTERVAL now = true <;>
  by_cases fo : _should_fetch s.last_odometer ODOMETER_INTERVAL now = true <;>
  by_cases fw : _should_fetch s.last_warnings WARNING_INTERVAL now = true <;>
  cases hev : c.is_ev_capable <;>
  simp [specState, specCalls, fdr, fb, fc, fo, fw, hev, h1, h2, h3, h4, hw,
        FetchResult.payload]

lemma force_refresh_allOk {c : Coordinator} {o : FetchOracle} {now : Int}
    {s : PollState} (htok : falsyStr c.access_token = false)
    (hcar : falsyStr c.selected_car_id = false) (hok : o.allOk = true) :
    async_force_refresh c o now s =
      .ok (forceState c o now) (forceCalls c)
        (mkSnapshot c (forceState c o now)) := by
  obtain ⟨⟨p1, h1⟩, ⟨p2, h2⟩, ⟨p3, h3⟩, ⟨p4, h4⟩, _⟩ := allOk_split hok
  have hw := fun calls => fetch_warnings_allOk (c := c) (o := o) calls hcar hok
  unfold async_force_refresh forceRefreshTail
  rw [htok, hcar]
  cases hev : c.is_ev_capable <;>
    simp [forceState, forceCalls, hev, h1, h2, h3, h4, hw, FetchResult.payload]

lemma mem_warnEndpoints_iff {c : Coordinator} {e : Endpoint} :
    e ∈ warnEndpoints c ↔
      (e = .lowFuel ∨ e = .tirePressure ∨ e = .lampWire ∨ e = .smartKeyBattery ∨
       e = .washerFluid ∨ e = .brakeOil ∨
       (e = .engineOil ∧ c.car_type ≠ some "EV")) := by
  unfold warnEndpoints
  by_cases hev : c.car_type == some "EV" <;> simp [hev] <;> aesop

lemma mem_specCalls_dr {c : Coordinator} {now : Int} {s : PollState} :
    Endpoint.drivingRange ∈ specCalls c now s ↔
      _should_fetch s.last_driving_range DRIVING_RANGE_INTERVAL now = true := by
  simp [specCalls, mem_warnEndpoints_iff]

lemma mem_specCalls_battery {c : Coordinator} {now : Int} {s : PollState} :
    Endpoint.battery ∈ specCalls c now s ↔
      (c.is_ev_capable && _should_fetch s.last_battery_status BATTERY_INTERVAL now)
        = true := by
  simp [specCalls, mem_warnEndpoints_iff]

lemma mem_specCalls_charging {c : Coordinator} {now : Int} {s : PollState} :
    Endpoint.charging ∈ specCalls c now s ↔
      (c.is_ev_capable && _should_fetch s.last_charging_status CHARGING_INTERVAL now)
        = true := by
  simp [specCalls, mem_warnEndpoints_iff]

lemma mem_specCalls_odometer {c : Coordinator} {now : Int} {s : PollState} :
    Endpoint.odometer ∈ specCalls c now s ↔
      _should_fetch s.last_odometer ODOMETER_INTERVAL now = true := by
  simp [specCalls, mem_warnEndpoints_iff]

lemma mem_specCalls_lowFuel {c : Coordinator} {now : Int} {s : PollState} :
    Endpoint.lowFuel ∈ specCalls c now s ↔
      _should_fetch s.last_warnings WARNING_INTERVAL now = true := by
  simp [specCalls, mem_warnEndpoints_iff]

lemma mem_specCalls_engineOil {c : Coordinator} {now : Int} {s : PollState} :
    Endpoint.engineOil ∈ specCalls c now s ↔
      (_should_fetch s.last_warnings WARNING_INTERVAL now = true ∧
        c.car_type ≠ some "EV") := by
  simp [specCalls, mem_warnEndpoints_iff]

lemma fetch_warnings_calls_shape {c : Coordinator} {o : FetchOracle}
    {calls : List Endpoint} {out : WarnOut}
    (h : _async_fetch_warnings c o calls = out) :
    ∃ seg : List Endpoint,
      out.callsOf = calls ++ seg ∧
      (∀ e ∈ seg, e = Endpoint.lowFuel ∨ e = Endpoint.tirePressure ∨
        e = Endpoint.lampWire ∨ e = Endpoint.smartKeyBattery ∨
        e = Endpoint.washerFluid ∨ e = Endpoint.brakeOil ∨
        e = Endpoint.engineOil) ∧
      (c.car_type = some "EV" → Endpoint.engineOil ∉ seg) := by
  unfold _async_fetch_warnings at h
  split at h
  · exact ⟨[], by subst h; simp [WarnOut.callsOf], by simp, by simp⟩
  · split at h
    · exact ⟨[.lowFuel], by subst h; simp [WarnOut.callsOf], by simp, by simp⟩
    · split at h
      · exact ⟨[.lowFuel, .tirePressure], by subst h; simp [WarnOut.callsOf],
          by simp, by simp⟩
      · split at h
        · exact ⟨[.lowFuel, .tirePressure, .lampWire],
            by subst h; simp [WarnOut.callsOf], by simp, by simp⟩
        · split at h
          · exact ⟨[.lowFuel, .tirePressure, .lampWire, .smartKeyBattery],
              by subst h; simp [WarnOut.callsOf], by simp, by simp⟩
          · split at h
            · exact ⟨[.lowFuel, .tirePressure, .lampWire, .smartKeyBattery,
                .washerFluid], by subst h; simp [WarnOut.callsOf], by simp, by simp⟩
            · split at h
              · exact ⟨[.lowFuel, .tirePressure, .lampWire, .smartKeyBattery,
                  .washerFluid, .brakeOil], by subst h; simp [WarnOut.callsOf],
                  by simp, by simp⟩
              · split at h
                · exact ⟨[.lowFuel, .tirePressure, .lampWire, .smartKeyBattery,
                    .washerFluid, .brakeOil], by subst h; simp [WarnOut.callsOf],
                    by simp, by simp⟩
                · next heq =>
                  refine ⟨[.lowFuel, .tirePressure, .lampWire, .smartKeyBattery,
                    .washerFluid, .brakeOil, .engineOil], ?_, by simp, ?_⟩
                  · split at h <;> subst h <;> simp [WarnOut.callsOf]
                  · intro hev
                    exact absurd (by simp [hev]) heq

lemma fetch_warnings_calls_ok {c : Coordinator} {o : FetchOracle}
    {calls : List Endpoint} {w : Warnings} {l' : List Endpoint}
    (h : _async_fetch_warnings c o calls = .ok w l') :
    ∀ e ∈ l', e ∈ calls ∨ (o.answer e).isOk = true := by
  unfold _async_fetch_warnings at h
  split at h
  · cases h; intro e he; exact Or.inl he
  · split at h
    · cases h
    · next p1 h1 =>
      split at h
      · cases h
      · next p2 h2 =>
        split at h
        · cases h
        · next p3 h3 =>
          split at h
          · cases h
          · next p4 h4 =>
            split at h
            · cases h
            · next p5 h5 =>
              split at h
              · cases h
              · next p6 h6 =>
                split at h
                · cases h
                  intro e he
                  rcases List.mem_append.mp he with h' | h'
                  · exact Or.inl h'
                  · right
                    simp only [List.mem_cons, List.not_mem_nil, or_false] at h'
                    rcases h' with rfl | rfl | rfl | rfl | rfl | rfl <;>
                      simp [FetchOracle.answer, FetchResult.isOk, h1, h2, h3, h4,
                            h5, h6]
                · split at h
                  · cases h
                  · next p7 h7 =>
                    cases h
                    intro e he
                    rcases List.mem_append.mp he with h' | h'
                    · exact Or.inl h'
                    · right
                      simp only [List.mem_cons, List.not_mem_nil, or_false] at h'
                      rcases h' with rfl | rfl | rfl | rfl | rfl | rfl | rfl <;>
                        simp [FetchOracle.answer, FetchResult.isOk, h1, h2, h3,
                              h4, h5, h6, h7]

lemma drivingRangeStep_effect {o : FetchOracle} {now : Int} {s : PollState}
    {calls : List Endpoint} {out : StepOut} (h : drivingRangeStep o now s calls = out) :
    ((out.state.driving_range = s.driving_range ∧
      out.state.last_driving_range = s.last_driving_range) ∨
      ∃ p, o.drivingRange = .ok p ∧ out.state.driving_range = some p ∧
        out.state.last_driving_range = some now) ∧
    out.state.battery_status = s.battery_status ∧
    out.state.last_battery_status = s.last_battery_status ∧
    out.state.charging_status = s.charging_status ∧
    out.state.last_charging_status = s.last_charging_status ∧
    out.state.odometer = s.odometer ∧
    out.state.last_odometer = s.last_odometer ∧
    out.state.warnings = s.warnings ∧
    out.state.last_warnings = s.last_warnings := by
  unfold drivingRangeStep at h
  split at h
  · split at h <;> subst h <;> simp_all [StepOut.state]
  · subst h; simp [StepOut.state]

lemma batteryStep_effect {c : Coordinator} {o : FetchOracle} {now : Int}
    {s : PollState} {calls : List Endpoint} {out : StepOut}
    (h : batteryStep c o now s calls = out) :
    ((out.state.battery_status = s.battery_status ∧
      out.state.last_battery_status = s.last_battery_status) ∨
      ∃ p, o.battery = .ok p ∧ out.state.battery_status = some p ∧
        out.state.last_battery_status = some now) ∧
    out.state.driving_range = s.driving_range ∧
    out.state.last_driving_range = s.last_driving_range ∧
    out.state.charging_status = s.charging_status ∧
    out.state.last_charging_status = s.last_charging_status ∧
    out.state.odometer = s.odometer ∧
    out.state.last_odometer = s.last_odometer ∧
    out.state.warnings = s.warnings ∧
    out.state.last_warnings = s.last_warnings := by
  unfold batteryStep at h
  split at h
  · split at h <;> subst h <;> simp_all [StepOut.state]
  · subst h; simp [StepOut.state]

lemma chargingStep_effect {c : Coordinator} {o : FetchOracle} {now : Int}
    {s : PollState} {calls : List Endpoint} {out : StepOut}
    (h : chargingStep c o now s calls = out) :
    ((out.state.charging_status = s.charging_status ∧
      out.state.last_charging_status = s.last_charging_status) ∨
      (∃ p, o.charging = .ok p ∧ out.state.charging_status = some p ∧
        out.state.last_charging_status = some now) ∨
      (c.is_ev_capable = false ∧ out.state.charging_status = none ∧
        out.state.last_charging_status = none)) ∧
    ((out.state.battery_status = s.battery_status ∧
      out.state.last_battery_status = s.last_battery_status) ∨
      (c.is_ev_capable = false ∧ out.state.battery_status = none ∧
        out.state.last_battery_status = none)) ∧
    out.state.driving_range = s.driving_range ∧
    out.state.last_driving_range = s.last_driving_range ∧
    out.state.odometer = s.odometer ∧
    out.state.last_odometer = s.last_odometer ∧
    out.state.warnings = s.warnings ∧
    out.state.last_warnings = s.last_warnings := by
  unfold chargingStep at h
  split at h
  · split at h <;> subst h <;> simp_all [StepOut.state]
  · split at h <;> subst h <;> simp_all [StepOut.state]

lemma odometerStep_effect {o : FetchOracle} {now : Int} {s : PollState}
    {calls : List Endpoint} {out : StepOut} (h : odometerStep o now s calls = out) :
    ((out.state.odometer = s.odometer ∧ out.state.last_odometer = s.last_odometer) ∨
      ∃ p, o.odometer = .ok p ∧ out.state.odometer = some p ∧
        out.state.last_odometer = some now) ∧
    out.state.driving_range = s.driving_range ∧
    out.state.last_driving_range = s.last_driving_range ∧
    out.state.battery_status = s.battery_status ∧
    out.state.last_battery_status = s.last_battery_status ∧
    out.state.charging_status = s.charging_status ∧
    out.state.last_charging_status = s.last_charging_status ∧
    out.state.warnings = s.warnings ∧
    out.state.last_warnings = s.last_warnings := by
  unfold odometerStep at h
  split at h
  · split at h <;> subst h <;> simp_all [StepOut.state]
  · subst h; simp [StepOut.state]

lemma warningsStep_effect {c : Coordinator} {o : FetchOracle} {now : Int}
    {s : PollState} {calls : List Endpoint} {out : StepOut}
    (h : warningsStep c o now s calls = out) :
    ((out.state.warnings = s.warnings ∧ out.state.last_warnings = s.last_warnings) ∨
      ∃ w l₀ l, _async_fetch_warnings c o l₀ = .ok w l ∧
        out.state.warnings = some w ∧ out.state.last_warnings = some now) ∧
    out.state.driving_range = s.driving_range ∧
    out.state.last_driving_range = s.last_driving_range ∧
    out.state.battery_status = s.battery_status ∧
    out.state.last_battery_status = s.last_battery_status ∧
    out.state.charging_status = s.charging_status ∧
    out.state.last_charging_status = s.last_charging_status ∧
    out.state.odometer = s.odometer ∧
    out.state.last_odometer = s.last_odometer := by
  unfold warningsStep at h
  split at h
  · split at h
    · subst h; simp [StepOut.state]
    · next w l hw =>
      subst h
      refine ⟨Or.inr ⟨w, calls, l, hw, rfl, rfl⟩, by simp [StepOut.state]⟩
  · subst h; simp [StepOut.state]

lemma drivingRangeStep_calls_ok {o : FetchOracle} {now : Int} {s : PollState}
    {calls : List Endpoint} {s' : PollState} {l' : List Endpoint}
    (h : drivingRangeStep o now s calls = .ok s' l') :
    ∀ e ∈ l', e ∈ calls ∨ (o.answer e).isOk = true := by
  unfold drivingRangeStep at h
  split at h
  · split at h
    · next p hp =>
      cases h
      intro e he
      rcases List.mem_append.mp he with h' | h'
      · exact Or.inl h'
      · simp only [List.mem_singleton] at h'
        subst h'
        exact Or.inr (by simp [FetchOracle.answer, hp, FetchResult.isOk])
    · cases h
  · cases h; intro e he; exact Or.inl he

lemma batteryStep_calls_ok {c : Coordinator} {o : FetchOracle} {now : Int}
    {s : PollState} {calls : List Endpoint} {s' : PollState} {l' : List Endpoint}
    (h : batteryStep c o now s calls = .ok s' l') :
    ∀ e ∈ l', e ∈ calls ∨ (o.answer e).isOk = true := by
  unfold batteryStep at h
  split at h
  · split at h
    · next p hp =>
      cases h
      intro e he
      rcases List.mem_append.mp he with h' | h'
      · exact Or.inl h'
      · simp only [List.mem_singleton] at h'
        subst h'
        exact Or.inr (by simp [FetchOracle.answer, hp, FetchResult.isOk])
    · cases h
  · cases h; intro e he; exact Or.inl he

lemma chargingStep_calls_ok {c : Coordinator} {o : FetchOracle} {now : Int}
    {s : PollState} {calls : List Endpoint} {s' : PollState} {l' : List Endpoint}
    (h : chargingStep c o now s calls = .ok s' l') :
    ∀ e ∈ l', e ∈ calls ∨ (o.answer e).isOk = true := by
  unfold chargingStep at h
  split at h
  · split at h
    · next p hp =>
      cases h
      intro e he
      rcases List.mem_append.mp he with h' | h'
      · exact Or.inl h'
      · simp only [List.mem_singleton] at h'
        subst h'
        exact Or.inr (by simp [FetchOracle.answer, hp, FetchResult.isOk])
    · cases h
  · split at h <;> cases h <;> intro e he <;> exact Or.inl he

lemma odometerStep_calls_ok {o : FetchOracle} {now : Int} {s : PollState}
    {calls : List Endpoint} {s' : PollState} {l' : List Endpoint}
    (h : odometerStep o now s calls = .ok s' l') :
    ∀ e ∈ l', e ∈ calls ∨ (o.answer e).isOk = true := by
  unfold odometerStep at h
  split at h
  · split at h
    · next p hp =>
      cases h
      intro e he
      rcases List.mem_append.mp he with h' | h'
      · exact Or.inl h'
      · simp only [List.mem_singleton] at h'
        subst h'
        exact Or.inr (by simp [FetchOracle.answer, hp, FetchResult.isOk])
    · cases h
  · cases h; intro e he; exact Or.inl he

lemma warningsStep_calls_ok {c : Coordinator} {o : FetchOracle} {now : Int}
    {s : PollState} {calls : List Endpoint} {s' : PollState} {l' : List Endpoint}
    (h : warningsStep c o now s calls = .ok s' l') :
    ∀ e ∈ l', e ∈ calls ∨ (o.answer e).isOk = true := by
  unfold warningsStep at h
  split at h
  · split at h
    · cases h
    · next w l hw => cases h; exact fetch_warnings_calls_ok hw
  · cases h; intro e he; exact Or.inl he

lemma drivingRangeStep_calls_shape {o : FetchOracle} {now : Int} {s : PollState}
    {calls : List Endpoint} {out : StepOut} (h : drivingRangeStep o now s calls = out) :
    ∀ e ∈ out.callsOf, e ∈ calls ∨ e = Endpoint.drivingRange := by
  unfold drivingRangeStep at h
  split at h
  · split at h <;> subst h <;> intro e he <;>
      simp only [StepOut.callsOf, List.mem_append, List.mem_singleton] at he <;>
      tauto
  · subst h; intro e he; exact Or.inl he

lemma batteryStep_calls_shape {c : Coordinator} {o : FetchOracle} {now : Int}
    {s : PollState} {calls : List Endpoint} {out : StepOut}
    (h : batteryStep c o now s calls = out) :
    ∀ e ∈ out.callsOf,
      e ∈ calls ∨ (e = Endpoint.battery ∧ c.is_ev_capable = true) := by
  unfold batteryStep at h
  split at h
  · next hcond =>
    have hev : c.is_ev_capable = true := (Bool.and_eq_true .. ▸ hcond).1
    split at h <;> subst h <;> intro e he <;>
      simp only [StepOut.callsOf, List.mem_append, List.mem_singleton] at he <;>
      tauto
  · subst h; intro e he; exact Or.inl he

lemma chargingStep_calls_shape {c : Coordinator} {o : FetchOracle} {now : Int}
    {s : PollState} {calls : List Endpoint} {out : StepOut}
    (h : chargingStep c o now s calls = out) :
    ∀ e ∈ out.callsOf,
      e ∈ calls ∨ (e = Endpoint.charging ∧ c.is_ev_capable = true) := by
  unfold chargingStep at h
  split at h
  · next hcond =>
    have hev : c.is_ev_capable = true := (Bool.and_eq_true .. ▸ hcond).1
    split at h <;> subst h <;> intro e he <;>
      simp only [StepOut.callsOf, List.mem_append, List.mem_singleton] at he <;>
      tauto
  · split at h <;> subst h <;> intro e he <;> exact Or.inl he

lemma odometerStep_calls_shape {o : FetchOracle} {now : Int} {s : PollState}
    {calls : List Endpoint} {out : StepOut} (h : odometerStep o now s calls = out) :
    ∀ e ∈ out.callsOf, e ∈ calls ∨ e = Endpoint.odometer := by
  unfold odometerStep at h
  split at h
  · split at h <;> subst h <;> intro e he <;>
      simp only [StepOut.callsOf, List.mem_append, List.mem_singleton] at he <;>
      tauto
  · subst h; intro e he; exact Or.inl he

lemma warningsStep_calls_shape {c : Coordinator} {o : FetchOracle} {now : Int}
    {s : PollState} {calls : List Endpoint} {out : StepOut}
    (h : warningsStep c o now s calls = out) :
    ∀ e ∈ out.callsOf,
      e ∈ calls ∨
      ((e = Endpoint.lowFuel ∨ e = Endpoint.tirePressure ∨ e = Endpoint.lampWire ∨
        e = Endpoint.smartKeyBattery ∨ e = Endpoint.washerFluid ∨
        e = Endpoint.brakeOil ∨ e = Endpoint.engineOil) ∧
        (e = Endpoint.engineOil → c.car_type ≠ some "EV")) := by
  unfold warningsStep at h
  split at h
  · have key : ∀ wout : WarnOut, _async_fetch_warnings c o calls = wout →
        ∀ e ∈ wout.callsOf, e ∈ calls ∨
          ((e = Endpoint.lowFuel ∨ e = Endpoint.tirePressure ∨
            e = Endpoint.lampWire ∨ e = Endpoint.smartKeyBattery ∨
            e = Endpoint.washerFluid ∨ e = Endpoint.brakeOil ∨
            e = Endpoint.engineOil) ∧
            (e = Endpoint.engineOil → c.car_type ≠ some "EV")) := by
      intro wout hw e he
      obtain ⟨seg, hseg, hmem, hev⟩ := fetch_warnings_calls_shape hw
      rw [hseg] at he
      rcases List.mem_append.mp he with h' | h'
      · exact Or.inl h'
      · refine Or.inr ⟨hmem e h', ?_⟩
        rintro rfl hEV
        exact hev hEV h'
    split at h
    · next m l hw =>
      subst h
      exact key _ hw
    · next w l hw =>
      subst h
      exact key _ hw
  · subst h; intro e he; exact Or.inl he

set_option maxHeartbeats 3200000 in
lemma update_data_calls_general {c : Coordinator} {o : FetchOracle} {now : Int}
    {s : PollState} :
    ∀ e ∈ (_async_update_data c o now s).callsMade,
      e = Endpoint.drivingRange ∨ e = Endpoint.odometer ∨
      ((e = Endpoint.battery ∨ e = Endpoint.charging) ∧ c.is_ev_capable = true) ∨
      (e = Endpoint.lowFuel ∨ e = Endpoint.tirePressure ∨ e = Endpoint.lampWire ∨
        e = Endpoint.smartKeyBattery ∨ e = Endpoint.washerFluid ∨
        e = Endpoint.brakeOil) ∨
      (e = Endpoint.engineOil ∧ c.car_type ≠ some "EV") := by
  intro e he
  unfold _async_update_data at he
  split at he
  · simp [CycleResult.callsMade] at he
  · split at he
    · next m1 t1 l1 h1 =>
      simp only [CycleResult.callsMade] at he
      have k1 := drivingRangeStep_calls_shape h1
      rcases k1 e (by simpa [StepOut.callsOf] using he) with h' | h'
      · simp at h'
      · tauto
    · next t1 l1 h1 =>
      have k1 := drivingRangeStep_calls_shape h1
      have lift1 : ∀ x ∈ l1, x = Endpoint.drivingRange := by
        intro x hx
        rcases k1 x (by simpa [StepOut.callsOf] using hx) with h' | h'
        · simp at h'
        · exact h'
      split at he
      · next m2 t2 l2 h2 =>
        simp only [CycleResult.callsMade] at he
        have k2 := batteryStep_calls_shape h2
        rcases k2 e (by simpa [StepOut.callsOf] using he) with h' | h'
        · exact Or.inl (lift1 e h')
        · tauto
      · next t2 l2 h2 =>
        have k2 := batteryStep_calls_shape h2
        have lift2 : ∀ x ∈ l2, x = Endpoint.drivingRange ∨
            (x = Endpoint.battery ∧ c.is_ev_capable = true) := by
          intro x hx
          rcases k2 x (by simpa [StepOut.callsOf] using hx) with h' | h'
          · exact Or.inl (lift1 x h')
          · exact Or.inr h'
        split at he
        · next m3 t3 l3 h3 =>
          simp only [CycleResult.callsMade] at he
          have k3 := chargingStep_calls_shape h3
          rcases k3 e (by simpa [StepOut.callsOf] using he) with h' | h'
          · rcases lift2 e h' with h'' | h'' <;> tauto
          · tauto
        · next t3 l3 h3 =>
          have k3 := chargingStep_calls_shape h3
          have lift3 : ∀ x ∈ l3, x = Endpoint.drivingRange ∨
              ((x = Endpoint.battery ∨ x = Endpoint.charging) ∧
                c.is_ev_capable = true) := by
            intro x hx
            rcases k3 x (by simpa [StepOut.callsOf] using hx) with h' | h'
            · rcases lift2 x h' with h'' | h'' <;> tauto
            · tauto
          split at he
          · next m4 t4 l4 h4 =>
            simp only [CycleResult.callsMade] at he
            have k4 := odometerStep_calls_shape h4
            rcases k4 e (by simpa [StepOut.callsOf] using he) with h' | h'
            · rcases lift3 e h' with h'' | h'' <;> tauto
            · tauto
          · next t4 l4 h4 =>
            have k4 := odometerStep_calls_shape h4
            have lift4 : ∀ x ∈ l4, x = Endpoint.drivingRange ∨
                x = Endpoint.odometer ∨
                ((x = Endpoint.battery ∨ x = Endpoint.charging) ∧
                  c.is_ev_capable = true) := by
              intro x hx
              rcases k4 x (by simpa [StepOut.callsOf] using hx) with h' | h'
              · rcases lift3 x h' with h'' | h'' <;> tauto
              · tauto
            split at he
            · next m5 t5 l5 h5 =>
              simp only [CycleResult.callsMade] at he
              have k5 := warningsStep_calls_shape h5
              rcases k5 e (by simpa [StepOut.callsOf] using he) with h' | h'
              · rcases lift4 e h' with h'' | h'' | h'' <;> tauto
              · tauto
            · next t5 l5 h5 =>
              simp only [CycleResult.callsMade] at he
              have k5 := warningsStep_calls_shape h5
              rcases k5 e (by simpa [StepOut.callsOf] using he) with h' | h'
              · rcases lift4 e h' with h'' | h'' | h'' <;> tauto
              · tauto

lemma cacheEvolution_refl (c : Coordinator) (o : FetchOracle) (now : Int)
    (s : PollState) : cacheEvolution c o now s s := by
  unfold cacheEvolution
  exact ⟨Or.inl ⟨rfl, rfl⟩, Or.inl ⟨rfl, rfl⟩, Or.inl ⟨rfl, rfl⟩,
    Or.inl ⟨rfl, rfl⟩, Or.inl ⟨rfl, rfl⟩⟩

lemma cacheEvolution_step_dr {c : Coordinator} {o : FetchOracle} {now : Int}
    {s₀ s₁ : PollState} {calls : List Endpoint} {out : StepOut}
    (hce : cacheEvolution c o now s₀ s₁) (h : drivingRangeStep o now s₁ calls = out) :
    cacheEvolution c o now s₀ out.state := by
  obtain ⟨e1, e2, e3, e4, e5, e6, e7, e8, e9⟩ := drivingRangeStep_effect h
  unfold cacheEvolution at hce ⊢
  obtain ⟨c1, c2, c3, c4, c5⟩ := hce
  refine ⟨?_, ?_, ?_, ?_, ?_⟩
  · rcases e1 with ⟨f1, f2⟩ | ⟨p, hp, f1, f2⟩
    · rw [f1, f2]; exact c1
    · exact Or.inr ⟨p, hp, f1, f2⟩
  · rw [e2, e3]; exact c2
  · rw [e4, e5]; exact c3
  · rw [e6, e7]; exact c4
  · rw [e8, e9]; exact c5

lemma cacheEvolution_step_battery {c : Coordinator} {o : FetchOracle} {now : Int}
    {s₀ s₁ : PollState} {calls : List Endpoint} {out : StepOut}
    (hce : cacheEvolution c o now s₀ s₁) (h : batteryStep c o now s₁ calls = out) :
    cacheEvolution c o now s₀ out.state := by
  obtain ⟨e1, e2, e3, e4, e5, e6, e7, e8, e9⟩ := batteryStep_effect h
  unfold cacheEvolution at hce ⊢
  obtain ⟨c1, c2, c3, c4, c5⟩ := hce
  refine ⟨?_, ?_, ?_, ?_, ?_⟩
  · rw [e2, e3]; exact c1
  · rcases e1 with ⟨f1, f2⟩ | ⟨p, hp, f1, f2⟩
    · rw [f1, f2]; exact c2
    · exact Or.inr (Or.inl ⟨p, hp, f1, f2⟩)
  · rw [e4, e5]; exact c3
  · rw [e6, e7]; exact c4
  · rw [e8, e9]; exact c5

lemma cacheEvolution_step_charging {c : Coordinator} {o : FetchOracle} {now : Int}
    {s₀ s₁ : PollState} {calls : List Endpoint} {out : StepOut}
    (hce : cacheEvolution c o now s₀ s₁) (h : chargingStep c o now s₁ calls = out) :
    cacheEvolution c o now s₀ out.state := by
  obtain ⟨e1, e2, e3, e4, e5, e6, e7, e8⟩ := chargingStep_effect h
  unfold cacheEvolution at hce ⊢
  obtain ⟨c1, c2, c3, c4, c5⟩ := hce
  refine ⟨?_, ?_, ?_, ?_, ?_⟩
  · rw [e3, e4]; exact c1
  · rcases e2 with ⟨f1, f2⟩ | ⟨hev, f1, f2⟩
    · rw [f1, f2]; exact c2
    · exact Or.inr (Or.inr ⟨hev, f1, f2⟩)
  · rcases e1 with ⟨f1, f2⟩ | ⟨p, hp, f1, f2⟩ | ⟨hev, f1, f2⟩
    · rw [f1, f2]; exact c3
    · exact Or.inr (Or.inl ⟨p, hp, f1, f2⟩)
    · exact Or.inr (Or.inr ⟨hev, f1, f2⟩)
  · rw [e5, e6]; exact c4
  · rw [e7, e8]; exact c5

lemma cacheEvolution_step_odometer {c : Coordinator} {o : FetchOracle} {now : Int}
    {s₀ s₁ : PollState} {calls : List Endpoint} {out : StepOut}
    (hce : cacheEvolution c o now s₀ s₁) (h : odometerStep o now s₁ calls = out) :
    cacheEvolution c o now s₀ out.state := by
  obtain ⟨e1, e2, e3, e4, e5, e6, e7, e8, e9⟩ := odometerStep_effect h
  unfold cacheEvolution at hce ⊢
  obtain ⟨c1, c2, c3, c4, c5⟩ := hce
  refine ⟨?_, ?_, ?_, ?_, ?_⟩
  · rw [e2, e3]; exact c1
  · rw [e4, e5]; exact c2
  · rw [e6, e7]; exact c3
  · rcases e1 with ⟨f1, f2⟩ | ⟨p, hp, f1, f2⟩
    · rw [f1, f2]; exact c4
    · exact Or.inr ⟨p, hp, f1, f2⟩
  · rw [e8, e9]; exact c5

lemma cacheEvolution_step_warnings {c : Coordinator} {o : FetchOracle} {now : Int}
    {s₀ s₁ : PollState} {calls : List Endpoint} {out : StepOut}
    (hce : cacheEvolution c o now s₀ s₁) (h : warningsStep c o now s₁ calls = out) :
    cacheEvolution c o now s₀ out.state := by
  obtain ⟨e1, e2, e3, e4, e5, e6, e7, e8, e9⟩ := warningsStep_effect h
  unfold cacheEvolution at hce ⊢
  obtain ⟨c1, c2, c3, c4, c5⟩ := hce
  refine ⟨?_, ?_, ?_, ?_, ?_⟩
  · rw [e2, e3]; exact c1
  · rw [e4, e5]; exact c2
  · rw [e6, e7]; exact c3
  · rw [e8, e9]; exact c4
  · rcases e1 with ⟨f1, f2⟩ | ⟨w, l₀, l, hw, f1, f2⟩
    · rw [f1, f2]; exact c5
    · exact Or.inr ⟨w, l₀, l, hw, f1, f2⟩

set_option maxHeartbeats 3200000 in
lemma update_data_failed_evolution {c : Coordinator} {o : FetchOracle} {now : Int}
    {s : PollState} {m : String} {s' : PollState} {calls : List Endpoint}
    (h : _async_update_data c o now s = .failed m s' calls) :
    cacheEvolution c o now s s' := by
  unfold _async_update_data at h
  split at h
  · cases h
    exact cacheEvolution_refl c o now s
  · split at h
    · next m1 t1 l1 h1 =>
      cases h
      have := cacheEvolution_step_dr (cacheEvolution_refl c o now s) h1
      simpa [StepOut.state] using this
    · next t1 l1 h1 =>
      have ce1 : cacheEvolution c o now s t1 := by
        simpa [StepOut.state] using
          cacheEvolution_step_dr (cacheEvolution_refl c o now s) h1
      split at h
      · next m2 t2 l2 h2 =>
        cases h
        simpa [StepOut.state] using cacheEvolution_step_battery ce1 h2
      · next t2 l2 h2 =>
        have ce2 : cacheEvolution c o now s t2 := by
          simpa [StepOut.state] using cacheEvolution_step_battery ce1 h2
        split at h
        · next m3 t3 l3 h3 =>
          cases h
          simpa [StepOut.state] using cacheEvolution_step_charging ce2 h3
        · next t3 l3 h3 =>
          have ce3 : cacheEvolution c o now s t3 := by
            simpa [StepOut.state] using cacheEvolution_step_charging ce2 h3
          split at h
          · next m4 t4 l4 h4 =>
            cases h
            simpa [StepOut.state] using cacheEvolution_step_odometer ce3 h4
          · next t4 l4 h4 =>
            have ce4 : cacheEvolution c o now s t4 := by
              simpa [StepOut.state] using cacheEvolution_step_odometer ce3 h4
            split at h
            · next m5 t5 l5 h5 =>
              cases h
              simpa [StepOut.state] using cacheEvolution_step_warnings ce4 h5
            · next t5 l5 h5 =>
              cases h

set_option maxHeartbeats 3200000 in
lemma update_data_ok_calls {c : Coordinator} {o : FetchOracle} {now : Int}
    {s : PollState} {s' : PollState} {calls : List Endpoint} {snap : Snapshot}
    (h : _async_update_data c o now s = .ok s' calls snap) :
    ∀ e ∈ calls, (o.answer e).isOk = true := by
  unfold _async_update_data at h
  split at h
  · cases h
  · split at h
    · next m1 t1 l1 h1 => cases h
    · next t1 l1 h1 =>
      have k1 : ∀ e ∈ l1, (o.answer e).isOk = true := by
        intro e he
        rcases drivingRangeStep_calls_ok h1 e he with h' | h'
        · simp at h'
        · exact h'
      split at h
      · next m2 t2 l2 h2 => cases h
      · next t2 l2 h2 =>
        have k2 : ∀ e ∈ l2, (o.answer e).isOk = true := by
          intro e he
          rcases batteryStep_calls_ok h2 e he with h' | h'
          · exact k1 e h'
          · exact h'
        split at h
        · next m3 t3 l3 h3 => cases h
        · next t3 l3 h3 =>
          have k3 : ∀ e ∈ l3, (o.answer e).isOk = true := by
            intro e he
            rcases chargingStep_calls_ok h3 e he with h' | h'
            · exact k2 e h'
            · exact h'
          split at h
          · next m4 t4 l4 h4 => cases h
          · next t4 l4 h4 =>
            have k4 : ∀ e ∈ l4, (o.answer e).isOk = true := by
              intro e he
              rcases odometerStep_calls_ok h4 e he with h' | h'
              · exact k3 e h'
              · exact h'
            split at h
            · next m5 t5 l5 h5 => cases h
            · next t5 l5 h5 =>
              cases h
              intro e he
              rcases warningsStep_calls_ok h5 e he with h' | h'
              · exact k4 e h'
              · exact h'

/-! ## Claim theorems -/

/-- C5: token-exchange input validation. Calling the token-exchange operation
with `grant_type "refresh_token"` and no `refresh_token` argument, with
`grant_type "delete"` and no `access_token`, with any grant type outside
`{authorization_code, refresh_token, delete}`, or with
`grant_type "authorization_code"` and no `code`, raises `BluelinkAuthError`
immediately and issues no network request. -/
theorem token_grant_validation_no_network (grant_type : String)
    (code refresh_token access_token redirect_uri : Option String)
    (net : TokenNet) (now : Int)
    (h : (grant_type = "refresh_token" ∧ refresh_token = none) ∨
         (grant_type = "delete" ∧ access_token = none) ∨
         (grant_type ∉ ["authorization_code", "refresh_token", "delete"]) ∨
         (grant_type = "authorization_code" ∧ code = none)) :
    (async_request_token grant_type code refresh_token access_token redirect_uri
      net now).networkCalled = false ∧
    ∃ m, (async_request_token grant_type code refresh_token access_token
      redirect_uri net now).outcome = .authError m := by
  rcases h with ⟨rfl, rfl⟩ | ⟨rfl, rfl⟩ | h | ⟨rfl, rfl⟩
  · simp [async_request_token, validate_grant, falsyStr]
  · simp [async_request_token, validate_grant, falsyStr]
  · simp only [List.mem_cons, List.not_mem_nil, or_false, not_or] at h
    obtain ⟨h1, h2, h3⟩ := h
    simp [async_request_token, validate_grant, h1, h2, h3]
  · simp [async_request_token, validate_grant, falsyStr]

/-- C5 witness: concrete instance (refresh grant without a refresh token). -/
theorem token_grant_validation_no_network_witness :
    (async_request_token "refresh_token" none none none none
      (.response 200 ⟨some "A", none, none, none, none, none⟩) 0).networkCalled
        = false ∧
    ∃ m, (async_request_token "refresh_token" none none none none
      (.response 200 ⟨some "A", none, none, none, none, none⟩) 0).outcome
        = .authError m :=
  token_grant_validation_no_network "refresh_token" none none none none
    (.response 200 ⟨some "A", none, none, none, none, none⟩) 0
    (Or.inl ⟨rfl, rfl⟩)

/-- C6: token-exchange success postcondition. For every successful exchange,
`access_token_expires_at = now + expires_in` (default when absent); the result
refresh token is the response's when the key is present, else the
caller-supplied one; and `refresh_token_expires_at` is `now` plus the fixed
long-lived default exactly when the resulting refresh token is non-empty,
`None` otherwise. -/
theorem token_success_postcondition (grant_type : String)
    (code refresh_token access_token redirect_uri : Option String)
    (status : Nat) (p : TokenPayload) (now : Int) (r : TokenResult)
    (h : (async_request_token grant_type code refresh_token access_token
      redirect_uri (.response status p) now).outcome = .ok r) :
    r.access_token_expires_at = now + p.expires_in.getD ACCESS_TOKEN_DEFAULT_EXPIRES_IN ∧
    r.refresh_token = (match p.refresh_token with
      | none => refresh_token
      | some v => v) ∧
    (falsyStr r.refresh_token = false →
      r.refresh_token_expires_at = some (now + REFRESH_TOKEN_DEFAULT_EXPIRES_IN)) ∧
    (falsyStr r.refresh_token = true → r.refresh_token_expires_at = none) := by
  unfold async_request_token at h
  cases hv : validate_grant grant_type code refresh_token access_token redirect_uri with
  | authError m => rw [hv] at h; simp at h
  | proceed data =>
    rw [hv] at h
    split at h
    · next m hm => simp at hm
    · next b hm =>
      split at h
      · next m hm2 => simp at hm2
      · next body hm2 => simp at hm2
      · next st2 p2 hm2 =>
        injection hm2 with h1 h2
        subst h1
        subst h2
        split at h
        · simp at h
        · split at h
          · simp at h
          · next atv hat =>
            split at h
            · simp at h
            · simp only [TokenOutcome.ok.injEq] at h
              subst h
              refine ⟨rfl, rfl, ?_, ?_⟩ <;> intro hf <;> simp_all

/-- C6 witness: the P8 instance — response with `access_token "A"`,
`expires_in 3600`, no `refresh_token` key, caller refresh token `"R"`. -/
theorem token_success_postcondition_witness :
    ∃ r, (async_request_token "refresh_token" none (some "R") none none
      (.response 200 ⟨some "A", none, some "Bearer", some 3600, none, none⟩)
      0).outcome = .ok r ∧
    r.refresh_token = some "R" ∧
    r.access_token_expires_at = 0 + (3600 : Int) ∧
    r.refresh_token_expires_at = some (0 + REFRESH_TOKEN_DEFAULT_EXPIRES_IN) := by
  refine ⟨⟨"A", some "R", some "Bearer", 3600, some REFRESH_TOKEN_DEFAULT_EXPIRES_IN⟩,
    by decide, ?_, ?_, ?_⟩
  · rfl
  · have := token_success_postcondition "refresh_token" none (some "R") none none
      200 ⟨some "A", none, some "Bearer", some 3600, none, none⟩ 0
      ⟨"A", some "R", some "Bearer", 3600, some REFRESH_TOKEN_DEFAULT_EXPIRES_IN⟩
      (by decide)
    exact this.1
  · have := token_success_postcondition "refresh_token" none (some "R") none none
      200 ⟨some "A", none, some "Bearer", some 3600, none, none⟩ 0
      ⟨"A", some "R", some "Bearer", 3600, some REFRESH_TOKEN_DEFAULT_EXPIRES_IN⟩
      (by decide)
    exact this.2.2.1 (by decide)

/-- C8: scheduled refresh is a no-op without a refresh token; a vendor
rejection leaves the entry data and coordinator tokens untouched (the handler
catches the error and returns, never escalating — the model is total); only on
success are the new tokens persisted and pushed to the coordinator. -/
theorem refresh_failure_preserves_credentials (entry : EntryData)
    (coord : CoordTokens) (net : RefreshNet) :
    (falsyStr coord.refresh_token = true →
      _async_refresh_tokens entry coord net = ⟨entry, coord, false⟩) ∧
    (∀ m, net = .authError m →
      (_async_refresh_tokens entry coord net).entry = entry ∧
      (_async_refresh_tokens entry coord net).coord = coord) ∧
    (∀ r, net = .ok r → falsyStr coord.refresh_token = false →
      (_async_refresh_tokens entry coord net).entry.access_token
        = some r.access_token ∧
      (_async_refresh_tokens entry coord net).entry.access_token_expires_at
        = some r.access_token_expires_at ∧
      (_async_refresh_tokens entry coord net).entry.refresh_token
        = (if falsyStr r.refresh_token then coord.refresh_token
           else r.refresh_token) ∧
      (_async_refresh_tokens entry coord net).coord.access_token
        = some r.access_token ∧
      (_async_refresh_tokens entry coord net).coord.refresh_token
        = (_async_refresh_tokens entry coord net).entry.refresh_token) := by
  refine ⟨?_, ?_, ?_⟩
  · intro hf
    simp [_async_refresh_tokens, hf]
  · rintro m rfl
    by_cases hf : falsyStr coord.refresh_token = true <;>
      simp [_async_refresh_tokens, hf]
  · rintro r rfl hf
    simp [_async_refresh_tokens, hf]

/-- C8 witness: no-op without token; unchanged on rejection; persisted and
pushed on success — at concrete inputs. -/
theorem refresh_failure_preserves_credentials_witness :
    (_async_refresh_tokens ⟨some "a", none, none, none, none⟩ ⟨some "a", none⟩
      (.authError "x") = ⟨⟨some "a", none, none, none, none⟩, ⟨some "a", none⟩, false⟩) ∧
    ((_async_refresh_tokens ⟨some "a", some "r", some "Bearer", some 10, some 20⟩
      ⟨some "a", some "r"⟩ (.authError "x")).entry
        = ⟨some "a", some "r", some "Bearer", some 10, some 20⟩) ∧
    ((_async_refresh_tokens ⟨some "a", some "r", some "Bearer", some 10, some 20⟩
      ⟨some "a", some "r"⟩ (.ok ⟨"A2", some "R2", some "Bearer", 99, some 77⟩)).entry.access_token
        = some "A2") := by
  refine ⟨?_, ?_, ?_⟩
  · exact (refresh_failure_preserves_credentials ⟨some "a", none, none, none, none⟩
      ⟨some "a", none⟩ (.authError "x")).1 (by decide)
  · exact ((refresh_failure_preserves_credentials
      ⟨some "a", some "r", some "Bearer", some 10, some 20⟩ ⟨some "a", some "r"⟩
      (.authError "x")).2.1 "x" rfl).1
  · exact ((refresh_failure_preserves_credentials
      ⟨some "a", some "r", some "Bearer", some 10, some 20⟩ ⟨some "a", some "r"⟩
      (.ok ⟨"A2", some "R2", some "Bearer", 99, some 77⟩)).2.2
      ⟨"A2", some "R2", some "Bearer", 99, some 77⟩ rfl (by decide)).1

/-- C7: reauth threshold. With a parseable `refresh_token_expires_at`, when
`now ≥ (expiry − default_lifetime) + 364 days` the evaluation emits exactly one
notification and starts one reauth flow, marking the entry id notified; a
later evaluation for the same entry with no config change emits nothing; a
missing, empty, or unparseable stored expiry emits nothing. -/
theorem reauth_threshold_once (parseDatetime : String → Option Int)
    (expiresRaw : Option String) (entry_id : String) (notified : List String)
    (now now' : Int) :
    (∀ raw t, expiresRaw = some raw → raw ≠ "" → parseDatetime raw = some t →
      now ≥ t - REFRESH_TOKEN_DEFAULT_EXPIRES_IN
        + REFRESH_TOKEN_REAUTH_THRESHOLD_DAYS * 86400 →
      notified.contains entry_id = false →
      _maybe_request_reauth parseDatetime expiresRaw entry_id notified now =
        ⟨[entry_id], [entry_id], notified ++ [entry_id]⟩ ∧
      _maybe_request_reauth parseDatetime expiresRaw entry_id
        (notified ++ [entry_id]) now' = ⟨[], [], notified ++ [entry_id]⟩) ∧
    ((expiresRaw = none ∨ expiresRaw = some "") →
      _maybe_request_reauth parseDatetime expiresRaw entry_id notified now =
        ⟨[], [], notified⟩) ∧
    (∀ raw, expiresRaw = some raw → raw ≠ "" → parseDatetime raw = none →
      _maybe_request_reauth parseDatetime expiresRaw entry_id notified now =
        ⟨[], [], notified⟩) := by
  refine ⟨?_, ?_, ?_⟩
  · rintro raw t rfl hraw hparse hthr hnot
    have hnot' : entry_id ∉ notified := by simpa using hnot
    have hthr' : t - REFRESH_TOKEN_DEFAULT_EXPIRES_IN
        + REFRESH_TOKEN_REAUTH_THRESHOLD_DAYS * 86400 ≤ now := hthr
    constructor
    · simp [_maybe_request_reauth, falsyStr, hraw, hparse, hthr', hnot']
    · simp [_maybe_request_reauth, falsyStr, hraw, hparse]
  · rintro (rfl | rfl) <;> simp [_maybe_request_reauth, falsyStr]
  · rintro raw rfl hraw hparse
    simp [_maybe_request_reauth, falsyStr, hraw, hparse]

/-- C7 witness: P7's end-to-end instance in seconds — expiry parses to
`t = 365·86400`, `now = 364·86400` (364 days after issuance): one notification
then dedup. -/
theorem reauth_threshold_once_witness :
    _maybe_request_reauth (fun _ => some (365 * 86400)) (some "2026-01-01")
      "entry1" [] (364 * 86400) = ⟨["entry1"], ["entry1"], ["entry1"]⟩ ∧
    _maybe_request_reauth (fun _ => some (365 * 86400)) (some "2026-01-01")
      "entry1" ["entry1"] (365 * 86400) = ⟨[], [], ["entry1"]⟩ := by
  have h := (reauth_threshold_once (fun _ => some (365 * 86400))
    (some "2026-01-01") "entry1" [] (364 * 86400) (365 * 86400)).1
    "2026-01-01" (365 * 86400) rfl (by decide) rfl (by decide) (by decide)
  exact ⟨h.1, h.2⟩

lemma lookupState_remove_self (m : StateMap) (k : String) :
    lookupState (removeState m k) k = none := by
  induction m with
  | nil => rfl
  | cons p t ih =>
    obtain ⟨a, b⟩ := p
    unfold removeState lookupState at ih ⊢
    rw [List.filter_cons]
    by_cases h : a = k
    · subst h
      simp only [beq_self_eq_true, Bool.not_true, Bool.false_eq_true, if_false]
      exact ih
    · have hne : (a == k) = false := by simp [h]
      simp only [hne, Bool.not_false, if_true, List.find?_cons, hne]
      exact ih

/-- C4: callback state tokens are consumed exactly once. With the legacy state
maps empty (nothing in this repository ever populates them), a callback with
an absent, empty, or unknown state token is answered with the error response
and leaves the domain data untouched without resuming any flow; a callback
that consumes a known token (any outcome except the `ValueError` rollback,
which restores the token) removes it from the map, and replaying the same
state against the resulting data is rejected with no further mutation and no
flow resumption. -/
theorem callback_state_consumed_once (d : DomainData) (q : Query)
    (flowAccepts : String → String → Bool)
    (h1 : d.oauth_states = []) (h2 : d.terms_states = []) :
    ((falsyStr q.state = true ∨
      (∃ st, q.state = some st ∧ lookupState d.callback_states st = none)) →
      handleCallback d q flowAccepts = ⟨.noActiveFlow, d, []⟩) ∧
    (∀ st r, q.state = some st → st ≠ "" →
      handleCallback d q flowAccepts = r →
      r.resp ≠ .flowNotReady → r.resp ≠ .noActiveFlow →
      lookupState r.data.callback_states st = none ∧
      handleCallback r.data q flowAccepts = ⟨.noActiveFlow, r.data, []⟩) := by
  obtain ⟨dcs, dos, dts⟩ := d
  simp only at h1 h2
  subst h1
  subst h2
  constructor
  · intro h
    rcases h with hf | ⟨st, hst, hlk⟩
    · unfold handleCallback
      simp [hf]
    · unfold handleCallback
      by_cases hst0 : st = ""
      · subst hst0
        simp [hst, falsyStr]
      · simp [hst, falsyStr, hst0, hlk]
  · intro st r hst hst0 hrun hnotVE hnotNA
    unfold handleCallback at hrun
    have hfs : falsyStr (some st) = false := by simp [falsyStr, hst0]
    rw [hst] at hrun
    simp only [hfs] at hrun
    simp at hrun
    have hgoal : ∀ d' : DomainData, d'.callback_states = removeState dcs st →
        d'.oauth_states = [] → d'.terms_states = [] →
        lookupState d'.callback_states st = none ∧
        handleCallback d' q flowAccepts = ⟨.noActiveFlow, d', []⟩ := by
      rintro ⟨rcs, ros, rts⟩ hcs hos hts
      simp only at hcs hos hts
      subst hcs
      subst hos
      subst hts
      refine ⟨lookupState_remove_self dcs st, ?_⟩
      unfold handleCallback
      rw [hst]
      simp [hfs, hst0, lookupState_remove_self]
    cases hlk : lookupState dcs st with
    | none =>
      rw [hlk] at hrun
      subst hrun
      exact absurd rfl hnotNA
    | some flow_id =>
      rw [hlk] at hrun
      by_cases hec : falsyStr q.errCode = false
      · simp only [hec, if_true] at hrun
        subst hrun
        exact hgoal _ rfl rfl rfl
      · have hec' : falsyStr q.errCode = true := by
          revert hec; cases falsyStr q.errCode <;> simp
        simp only [hec', Bool.true_eq_false, if_false] at hrun
        cases hauth : (if falsyStr q.code = true then q.userId else q.code) with
        | none =>
          rw [hauth] at hrun
          subst hrun
          exact hgoal _ rfl rfl rfl
        | some a =>
          rw [hauth] at hrun
          by_cases ha0 : a = ""
          · simp only [ha0, if_true] at hrun
            subst hrun
            exact hgoal _ rfl rfl rfl
          · simp only [ha0, if_false] at hrun
            cases hfa : flowAccepts flow_id a
            · simp only [hfa, Bool.false_eq_true, if_false] at hrun
              subst hrun
              exact absurd rfl hnotVE
            · simp only [hfa, if_true] at hrun
              subst hrun
              exact hgoal _ rfl rfl rfl

/-- C4 witness: one state-map entry; an unknown state is rejected without
mutation; successful consumption removes the entry and a replay is
rejected. -/
theorem callback_state_consumed_once_witness :
    (handleCallback ⟨[("s1", "f1")], [], []⟩
      ⟨some "c0", some "s2", none, none, none⟩ (fun _ _ => true) =
      ⟨.noActiveFlow, ⟨[("s1", "f1")], [], []⟩, []⟩) ∧
    (lookupState (handleCallback ⟨[("s1", "f1")], [], []⟩
      ⟨some "c0", some "s1", none, none, none⟩
      (fun _ _ => true)).data.callback_states "s1" = none) ∧
    (handleCallback (handleCallback ⟨[("s1", "f1")], [], []⟩
      ⟨some "c0", some "s1", none, none, none⟩ (fun _ _ => true)).data
      ⟨some "c0", some "s1", none, none, none⟩ (fun _ _ => true) =
      ⟨.noActiveFlow, (handleCallback ⟨[("s1", "f1")], [], []⟩
        ⟨some "c0", some "s1", none, none, none⟩ (fun _ _ => true)).data, []⟩) := by
  refine ⟨?_, ?_, ?_⟩
  · exact (callback_state_consumed_once ⟨[("s1", "f1")], [], []⟩
      ⟨some "c0", some "s2", none, none, none⟩ (fun _ _ => true) rfl rfl).1
      (Or.inr ⟨"s2", rfl, by decide⟩)
  · exact ((callback_state_consumed_once ⟨[("s1", "f1")], [], []⟩
      ⟨some "c0", some "s1", none, none, none⟩ (fun _ _ => true) rfl rfl).2
      "s1" _ rfl (by decide) rfl (by decide) (by decide)).1
  · exact ((callback_state_consumed_once ⟨[("s1", "f1")], [], []⟩
      ⟨some "c0", some "s1", none, none, none⟩ (fun _ _ => true) rfl rfl).2
      "s1" _ rfl (by decide) rfl (by decide) (by decide)).2

lemma not_due_flag {last : Option Int} {interval now : Int}
    (h : ¬ dueP last interval now) : _should_fetch last interval now = false := by
  cases hf : _should_fetch last interval now
  · rfl
  · exact absurd (should_fetch_iff.mp hf) h

/-- C1: incremental fetch policy. In a cycle in which credentials and car are
present and every endpoint would succeed, each capability-appropriate family
is fetched exactly when its last-fetched timestamp is unset or `now − last ≥
interval`; otherwise its cached value and timestamp are left unchanged. In
particular, on the first cycle (fresh poll state) every applicable family is
fetched. -/
theorem incremental_cycle_fetch_policy (c : Coordinator) (o : FetchOracle)
    (now : Int) (s : PollState)
    (htok : falsyStr c.access_token = false)
    (hcar : falsyStr c.selected_car_id = false) (hok : o.allOk = true) :
    ∃ s' calls snap, _async_update_data c o now s = .ok s' calls snap ∧
      ((Endpoint.drivingRange ∈ calls ↔
          dueP s.last_driving_range DRIVING_RANGE_INTERVAL now) ∧
        (¬ dueP s.last_driving_range DRIVING_RANGE_INTERVAL now →
          s'.driving_range = s.driving_range ∧
          s'.last_driving_range = s.last_driving_range)) ∧
      (c.is_ev_capable = true →
        (Endpoint.battery ∈ calls ↔
          dueP s.last_battery_status BATTERY_INTERVAL now) ∧
        (¬ dueP s.last_battery_status BATTERY_INTERVAL now →
          s'.battery_status = s.battery_status ∧
          s'.last_battery_status = s.last_battery_status) ∧
        (Endpoint.charging ∈ calls ↔
          dueP s.last_charging_status CHARGING_INTERVAL now) ∧
        (¬ dueP s.last_charging_status CHARGING_INTERVAL now →
          s'.charging_status = s.charging_status ∧
          s'.last_charging_status = s.last_charging_status)) ∧
      ((Endpoint.odometer ∈ calls ↔ dueP s.last_odometer ODOMETER_INTERVAL now) ∧
        (¬ dueP s.last_odometer ODOMETER_INTERVAL now →
          s'.odometer = s.odometer ∧ s'.last_odometer = s.last_odometer)) ∧
      ((Endpoint.lowFuel ∈ calls ↔ dueP s.last_warnings WARNING_INTERVAL now) ∧
        (¬ dueP s.last_warnings WARNING_INTERVAL now →
          s'.warnings = s.warnings ∧ s'.last_warnings = s.last_warnings)) ∧
      (s = PollState.initial →
        Endpoint.drivingRange ∈ calls ∧ Endpoint.odometer ∈ calls ∧
        Endpoint.lowFuel ∈ calls ∧
        (c.is_ev_capable = true →
          Endpoint.battery ∈ calls ∧ Endpoint.charging ∈ calls)) := by
  refine ⟨specState c o now s, specCalls c now s, mkSnapshot c (specState c o now s),
    update_data_allOk htok hcar hok, ⟨?_, ?_⟩, ?_, ⟨?_, ?_⟩, ⟨?_, ?_⟩, ?_⟩
  · rw [mem_specCalls_dr, should_fetch_iff]
  · intro hnd
    simp [specState, not_due_flag hnd]
  · intro hev
    refine ⟨?_, ?_, ?_, ?_⟩
    · rw [mem_specCalls_battery, hev]
      simp [should_fetch_iff]
    · intro hnd
      simp [specState, hev, not_due_flag hnd]
    · rw [mem_specCalls_charging, hev]
      simp [should_fetch_iff]
    · intro hnd
      simp [specState, hev, not_due_flag hnd]
  · rw [mem_specCalls_odometer, should_fetch_iff]
  · intro hnd
    simp [specState, not_due_flag hnd]
  · rw [mem_specCalls_lowFuel, should_fetch_iff]
  · intro hnd
    simp [specState, not_due_flag hnd]
  · rintro rfl
    refine ⟨?_, ?_, ?_, ?_⟩
    · simp [mem_specCalls_dr, PollState.initial, _should_fetch]
    · simp [mem_specCalls_odometer, PollState.initial, _should_fetch]
    · simp [mem_specCalls_lowFuel, PollState.initial, _should_fetch]
    · intro hev
      constructor
      · rw [mem_specCalls_battery, hev]
        simp [PollState.initial, _should_fetch]
      · rw [mem_specCalls_charging, hev]
        simp [PollState.initial, _should_fetch]

/-- C2: a failed fetch never discards caches. If a cycle publishes a snapshot,
every endpoint it called had succeeded (so any raising endpoint call makes the
whole cycle fail as `UpdateFailed`); and whenever a cycle fails, every
family's cache/timestamp pair is exactly as it was before the failing call:
unchanged, or already replaced by a successfully fetched payload stamped
`now`, or (EV families on a non-EV-capable car, which the code clears on every
cycle) cleared — never any synthesized default. -/
theorem failed_cycle_preserves_caches (c : Coordinator) (o : FetchOracle)
    (now : Int) (s : PollState) :
    (∀ s' calls snap, _async_update_data c o now s = .ok s' calls snap →
      ∀ e ∈ calls, (o.answer e).isOk = true) ∧
    (∀ m s' calls, _async_update_data c o now s = .failed m s' calls →
      cacheEvolution c o now s s') :=
  ⟨fun _ _ _ h => update_data_ok_calls h,
   fun _ _ _ h => update_data_failed_evolution h⟩

/-- C2 witness: with the battery endpoint raising, the concrete cycle fails
after the successful driving-range fetch and the final state is exactly the
pre-state plus that one fetched family. -/
theorem failed_cycle_preserves_caches_witness :
    (_async_update_data
      ⟨"id", "sec", "uri", some "tok", none, some "car1", some ⟨some "EV"⟩⟩
      ⟨.ok 1, .fail "boom", .ok 1, .ok 1, .ok 1, .ok 1, .ok 1, .ok 1, .ok 1,
        .ok 1, .ok 1⟩ 0 PollState.initial =
      .failed "boom"
        { PollState.initial with driving_range := some 1,
                                 last_driving_range := some 0 }
        [.drivingRange, .battery]) ∧
    cacheEvolution
      ⟨"id", "sec", "uri", some "tok", none, some "car1", some ⟨some "EV"⟩⟩
      ⟨.ok 1, .fail "boom", .ok 1, .ok 1, .ok 1, .ok 1, .ok 1, .ok 1, .ok 1,
        .ok 1, .ok 1⟩ 0 PollState.initial
      { PollState.initial with driving_range := some 1,
                               last_driving_range := some 0 } := by
  constructor
  · decide
  · exact (failed_cycle_preserves_caches _ _ 0 PollState.initial).2 "boom" _
      [.drivingRange, .battery] (by decide)

/-- C1 witness: EV car, all endpoints succeeding, `now = 400`; driving range
last fetched at 0 (not yet due) and battery at 200 (not yet due) are skipped
and kept; charging, odometer and warnings (timestamps unset) are fetched. -/
theorem incremental_cycle_fetch_policy_witness :
    ∃ s' calls snap,
      _async_update_data
        ⟨"id", "sec", "uri", some "tok", none, some "car1", some ⟨some "EV"⟩⟩
        (FetchOracle.const 7) 400
        ⟨none, some 0, none, some 200, none, none, none, none, none, none⟩ =
        .ok s' calls snap ∧
      Endpoint.drivingRange ∉ calls ∧ Endpoint.battery ∉ calls ∧
      Endpoint.charging ∈ calls ∧ Endpoint.odometer ∈ calls ∧
      Endpoint.lowFuel ∈ calls ∧
      s'.driving_range = none ∧ s'.last_driving_range = some 0 ∧
      s'.battery_status = none ∧ s'.last_battery_status = some 200 := by
  obtain ⟨s', calls, snap, hrun, ⟨hdr, hdrp⟩, hev, ⟨hod, _⟩, ⟨hlf, _⟩, _⟩ :=
    incremental_cycle_fetch_policy
      ⟨"id", "sec", "uri", some "tok", none, some "car1", some ⟨some "EV"⟩⟩
      (FetchOracle.const 7) 400
      ⟨none, some 0, none, some 200, none, none, none, none, none, none⟩
      (by decide) (by decide) (by decide)
  obtain ⟨hb, hbp, hc, _⟩ := hev (by decide)
  have hnddr : ¬ dueP (some (0 : Int)) DRIVING_RANGE_INTERVAL 400 := by
    rw [← should_fetch_iff]
    decide
  have hndb : ¬ dueP (some (200 : Int)) BATTERY_INTERVAL 400 := by
    rw [← should_fetch_iff]
    decide
  refine ⟨s', calls, snap, hrun, ?_, ?_, ?_, ?_, ?_, ?_, ?_, ?_, ?_⟩
  · exact fun hm => hnddr (hdr.mp hm)
  · exact fun hm => hndb (hb.mp hm)
  · exact hc.mpr (should_fetch_iff.mp (by decide))
  · exact hod.mpr (should_fetch_iff.mp (by decide))
  · exact hlf.mpr (should_fetch_iff.mp (by decide))
  · exact (hdrp hnddr).1
  · exact (hdrp hnddr).2
  · exact (hbp hndb).1
  · exact (hbp hndb).2

/-- C3 counterexample: the claim says a resource whose normalized car type is
outside `{EV, PHEV, FCEV}` never triggers battery or charging calls. A raw car
type of `" "` (whitespace) normalizes to `""`, which is outside that set, yet
the coordinator re-normalizes it to unknown, classifies the car EV-capable,
and the cycle does call the battery and charging endpoints. -/
theorem capability_gating_counterexample :
    Coordinator.car_type
      ⟨"id", "sec", "uri", some "tok", none, some "car1", some ⟨some " "⟩⟩ =
      some "" ∧
    ¬ ("" ∈ EV_CAPABLE_CAR_TYPES) ∧
    Endpoint.battery ∈
      (_async_update_data
        ⟨"id", "sec", "uri", some "tok", none, some "car1", some ⟨some " "⟩⟩
        (FetchOracle.const 7) 0 PollState.initial).callsMade ∧
    Endpoint.charging ∈
      (_async_update_data
        ⟨"id", "sec", "uri", some "tok", none, some "car1", some ⟨some " "⟩⟩
        (FetchOracle.const 7) 0 PollState.initial).callsMade := by
  decide

/-- C3 (amended): capability gating. A resource whose car type normalizes to
a normalization-stable, non-empty code outside `{EV, PHEV, FCEV}` never
triggers a battery or charging endpoint call in an incremental cycle (the
whitespace edge case, where the normalized type is the empty string, is
re-classified as unknown and therefore EV-capable); an EV-capable resource
with both families due does trigger them in a successful cycle; and the
engine-oil warning endpoint is only ever called when the car is not a pure
EV. -/
theorem capability_gating_amended (c : Coordinator) (o : FetchOracle)
    (now : Int) (s : PollState) :
    (∀ t, c.car_type = some t → t ≠ "" → normalize_car_type (some t) = some t →
      t ∉ EV_CAPABLE_CAR_TYPES →
      Endpoint.battery ∉ (_async_update_data c o now s).callsMade ∧
      Endpoint.charging ∉ (_async_update_data c o now s).callsMade) ∧
    (c.is_ev_capable = true → falsyStr c.access_token = false →
      falsyStr c.selected_car_id = false → o.allOk = true →
      dueP s.last_battery_status BATTERY_INTERVAL now →
      dueP s.last_charging_status CHARGING_INTERVAL now →
      Endpoint.battery ∈ (_async_update_data c o now s).callsMade ∧
      Endpoint.charging ∈ (_async_update_data c o now s).callsMade) ∧
    (c.car_type = some "EV" →
      Endpoint.engineOil ∉ (_async_update_data c o now s).callsMade) := by
  refine ⟨?_, ?_, ?_⟩
  · intro t hct ht0 hnorm hmem
    have hev : c.is_ev_capable = false := by
      unfold Coordinator.is_ev_capable
      rw [hct]
      unfold is_ev_capable_car_type
      rw [hnorm]
      simpa [EV_CAPABLE_CAR_TYPES] using hmem
    constructor
    · intro hm
      rcases update_data_calls_general _ hm with h | h | ⟨_, h⟩ | h | ⟨h, _⟩ <;>
        simp_all
    · intro hm
      rcases update_data_calls_general _ hm with h | h | ⟨_, h⟩ | h | ⟨h, _⟩ <;>
        simp_all
  · intro hev htok hcar hok hdueb hduec
    rw [update_data_allOk htok hcar hok]
    simp only [CycleResult.callsMade]
    constructor
    · rw [mem_specCalls_battery, hev]
      simpa [should_fetch_iff] using hdueb
    · rw [mem_specCalls_charging, hev]
      simpa [should_fetch_iff] using hduec
  · intro hEV hm
    rcases update_data_calls_general _ hm with h | h | ⟨h, _⟩ | h | ⟨_, h⟩ <;>
      simp_all

/-- C3 witness: a `"GN"` (combustion) car triggers neither EV endpoint; an
`"EV"` car with both families due triggers both; the `"EV"` car's cycle never
calls the engine-oil endpoint. -/
theorem capability_gating_amended_witness :
    (Endpoint.battery ∉
      (_async_update_data
        ⟨"id", "sec", "uri", some "tok", none, some "car1", some ⟨some "GN"⟩⟩
        (FetchOracle.const 7) 0 PollState.initial).callsMade) ∧
    (Endpoint.battery ∈
      (_async_update_data
        ⟨"id", "sec", "uri", some "tok", none, some "car1", some ⟨some "EV"⟩⟩
        (FetchOracle.const 7) 0 PollState.initial).callsMade) ∧
    (Endpoint.charging ∈
      (_async_update_data
        ⟨"id", "sec", "uri", some "tok", none, some "car1", some ⟨some "EV"⟩⟩
        (FetchOracle.const 7) 0 PollState.initial).callsMade) ∧
    (Endpoint.engineOil ∉
      (_async_update_data
        ⟨"id", "sec", "uri", some "tok", none, some "car1", some ⟨some "EV"⟩⟩
        (FetchOracle.const 7) 0 PollState.initial).callsMade) := by
  refine ⟨?_, ?_, ?_, ?_⟩
  · exact ((capability_gating_amended
      ⟨"id", "sec", "uri", some "tok", none, some "car1", some ⟨some "GN"⟩⟩
      (FetchOracle.const 7) 0 PollState.initial).1 "GN" (by decide) (by decide)
      (by decide) (by decide)).1
  · exact ((capability_gating_amended
      ⟨"id", "sec", "uri", some "tok", none, some "car1", some ⟨some "EV"⟩⟩
      (FetchOracle.const 7) 0 PollState.initial).2.1 (by decide) (by decide)
      (by decide) (by decide) (Or.inl rfl) (Or.inl rfl)).1
  · exact ((capability_gating_amended
      ⟨"id", "sec", "uri", some "tok", none, some "car1", some ⟨some "EV"⟩⟩
      (FetchOracle.const 7) 0 PollState.initial).2.1 (by decide) (by decide)
      (by decide) (by decide) (Or.inl rfl) (Or.inl rfl)).2
  · exact (capability_gating_amended
      ⟨"id", "sec", "uri", some "tok", none, some "car1", some ⟨some "EV"⟩⟩
      (FetchOracle.const 7) 0 PollState.initial).2.2 (by decide)

/-- C9: forced full refresh. With credentials and car present and all
endpoints succeeding, `async_force_refresh` re-fetches every
capability-appropriate family sequentially with no staleness check, stamps
every applicable family's last-fetched time with the single `now` captured at
entry, clears the EV families (caches and timestamps) for a non-EV-capable
car, and immediately publishes the snapshot assembled from the final state. -/
theorem force_refresh_resets_staleness (c : Coordinator) (o : FetchOracle)
    (now : Int) (s : PollState)
    (htok : falsyStr c.access_token = false)
    (hcar : falsyStr c.selected_car_id = false) (hok : o.allOk = true) :
    ∃ s' calls snap, async_force_refresh c o now s = .ok s' calls snap ∧
      s'.last_driving_range = some now ∧ s'.last_odometer = some now ∧
      s'.last_warnings = some now ∧
      (c.is_ev_capable = true →
        s'.last_battery_status = some now ∧ s'.last_charging_status = some now ∧
        Endpoint.battery ∈ calls ∧ Endpoint.charging ∈ calls) ∧
      (c.is_ev_capable = false →
        s'.battery_status = none ∧ s'.charging_status = none ∧
        s'.last_battery_status = none ∧ s'.last_charging_status = none ∧
        Endpoint.battery ∉ calls ∧ Endpoint.charging ∉ calls) ∧
      Endpoint.drivingRange ∈ calls ∧ Endpoint.odometer ∈ calls ∧
      Endpoint.lowFuel ∈ calls ∧ Endpoint.tirePressure ∈ calls ∧
      Endpoint.lampWire ∈ calls ∧ Endpoint.smartKeyBattery ∈ calls ∧
      Endpoint.washerFluid ∈ calls ∧ Endpoint.brakeOil ∈ calls ∧
      (Endpoint.engineOil ∈ calls ↔ c.car_type ≠ some "EV") ∧
      snap = mkSnapshot c s' := by
  refine ⟨forceState c o now, forceCalls c, mkSnapshot c (forceState c o now),
    force_refresh_allOk htok hcar hok, rfl, rfl, rfl, ?_, ?_, ?_, ?_, ?_, ?_,
    ?_, ?_, ?_, ?_, ?_, rfl⟩
  · intro hev
    refine ⟨by simp [forceState, hev], by simp [forceState, hev], ?_, ?_⟩ <;>
      simp [forceCalls, hev]
  · intro hev
    refine ⟨by simp [forceState, hev], by simp [forceState, hev],
      by simp [forceState, hev], by simp [forceState, hev], ?_, ?_⟩ <;>
      simp [forceCalls, hev, mem_warnEndpoints_iff]
  all_goals cases hev : c.is_ev_capable <;>
    simp [forceCalls, hev, mem_warnEndpoints_iff]

/-- C9 witness: forced refresh at `now = 50` for an EV car (everything
stamped 50, battery and charging fetched) extracted from the theorem at a
concrete input. -/
theorem force_refresh_resets_staleness_witness :
    ∃ s' calls snap,
      async_force_refresh
        ⟨"id", "sec", "uri", some "tok", none, some "car1", some ⟨some "EV"⟩⟩
        (FetchOracle.const 7) 50
        ⟨some 1, some 2, some 3, some 4, some 5, some 6, some 7, some 8,
          none, some 9⟩ = .ok s' calls snap ∧
      s'.last_driving_range = some 50 ∧ s'.last_odometer = some 50 ∧
      s'.last_warnings = some 50 ∧ s'.last_battery_status = some 50 ∧
      s'.last_charging_status = some 50 ∧
      Endpoint.battery ∈ calls ∧ Endpoint.charging ∈ calls ∧
      Endpoint.drivingRange ∈ calls ∧ snap = mkSnapshot
        ⟨"id", "sec", "uri", some "tok", none, some "car1", some ⟨some "EV"⟩⟩
        s' := by
  obtain ⟨s', calls, snap, hrun, h1, h2, h3, hev, _, hdr, _, _, _, _, _, _, _,
      _, hsnap⟩ :=
    force_refresh_resets_staleness
      ⟨"id", "sec", "uri", some "tok", none, some "car1", some ⟨some "EV"⟩⟩
      (FetchOracle.const 7) 50
      ⟨some 1, some 2, some 3, some 4, some 5, some 6, some 7, some 8,
        none, some 9⟩ (by decide) (by decide) (by decide)
  obtain ⟨hb1, hb2, hb3, hb4⟩ := hev (by decide)
  exact ⟨s', calls, snap, hrun, h1, h2, h3, hb1, hb2, hb3, hb4, hdr, hsnap⟩

/-- C10: missing-type default. `is_ev_capable_car_type` returns `True`
whenever the normalized type is `None`; a coordinator constructed without a
car type (or with a type that normalizes to the empty string, which the
coordinator re-normalizes to unknown) is classified EV-capable, and such a
coordinator does fetch the battery and charging families on a successful
cycle when they are due; EV capability is only disabled by a type code that
is present, non-empty, and survives normalization. -/
theorem ev_capability_defaults_true (c : Coordinator) (o : FetchOracle)
    (now : Int) (s : PollState) :
    (∀ ct, normalize_car_type ct = none → is_ev_capable_car_type ct = true) ∧
    (c.car.bind Car.carType = none → c.is_ev_capable = true) ∧
    (∀ rawt, c.car.bind Car.carType = some rawt →
      normalize_car_type (some rawt) = some "" → c.is_ev_capable = true) ∧
    (c.car.bind Car.carType = none → falsyStr c.access_token = false →
      falsyStr c.selected_car_id = false → o.allOk = true →
      dueP s.last_battery_status BATTERY_INTERVAL now →
      dueP s.last_charging_status CHARGING_INTERVAL now →
      Endpoint.battery ∈ (_async_update_data c o now s).callsMade ∧
      Endpoint.charging ∈ (_async_update_data c o now s).callsMade) ∧
    (∀ t, is_ev_capable_car_type (some t) = false →
      t ≠ "" ∧ ∃ u, normalize_car_type (some t) = some u ∧
        u ∉ EV_CAPABLE_CAR_TYPES) ∧
    (c.is_ev_capable = false →
      ∃ rawt, c.car.bind Car.carType = some rawt ∧ rawt ≠ "" ∧
        normalize_car_type (some rawt) ≠ none) := by
  have hevnone : c.car.bind Car.carType = none → c.is_ev_capable = true := by
    intro h
    simp [Coordinator.is_ev_capable, Coordinator.car_type, h, normalize_car_type,
      is_ev_capable_car_type]
  refine ⟨?_, hevnone, ?_, ?_, ?_, ?_⟩
  · intro ct h
    simp [is_ev_capable_car_type, h]
  · intro rawt hb hnorm
    have hct : c.car_type = some "" := by
      unfold Coordinator.car_type
      rw [hb, hnorm]
    unfold Coordinator.is_ev_capable
    rw [hct]
    simp [is_ev_capable_car_type, normalize_car_type]
  · intro hb htok hcar hok hdueb hduec
    have hev := hevnone hb
    rw [update_data_allOk htok hcar hok]
    simp only [CycleResult.callsMade]
    constructor
    · rw [mem_specCalls_battery, hev]
      simpa [should_fetch_iff] using hdueb
    · rw [mem_specCalls_charging, hev]
      simpa [should_fetch_iff] using hduec
  · intro t h
    constructor
    · rintro rfl
      simp [is_ev_capable_car_type, normalize_car_type] at h
    · cases hn : normalize_car_type (some t) with
      | none => simp [is_ev_capable_car_type, hn] at h
      | some u =>
        refine ⟨u, rfl, ?_⟩
        simp only [is_ev_capable_car_type, hn] at h
        simpa [EV_CAPABLE_CAR_TYPES] using h
  · intro h
    cases hb : c.car.bind Car.carType with
    | none => exact absurd (hevnone hb) (by simp [h])
    | some rawt =>
      refine ⟨rawt, rfl, ?_, ?_⟩
      · rintro rfl
        have : c.is_ev_capable = true := by
          simp [Coordinator.is_ev_capable, Coordinator.car_type, hb,
            normalize_car_type, is_ev_capable_car_type]
        simp [this] at h
      · intro hn
        have hct : c.car_type = none := by
          unfold Coordinator.car_type
          rw [hb, hn]
        have : c.is_ev_capable = true := by
          unfold Coordinator.is_ev_capable
          rw [hct]
          rfl
        simp [this] at h

/-- C10 witness: a coordinator with no car dict is EV-capable and a due cycle
calls battery and charging; `is_ev_capable_car_type` on `None` and on the
empty string is `True`; `"GN"` yields `False` with normalized code `"GN"`
outside the set. -/
theorem ev_capability_defaults_true_witness :
    is_ev_capable_car_type none = true ∧
    Coordinator.is_ev_capable
      ⟨"id", "sec", "uri", some "tok", none, some "car1", none⟩ = true ∧
    (Endpoint.battery ∈
      (_async_update_data
        ⟨"id", "sec", "uri", some "tok", none, some "car1", none⟩
        (FetchOracle.const 7) 0 PollState.initial).callsMade ∧
     Endpoint.charging ∈
      (_async_update_data
        ⟨"id", "sec", "uri", some "tok", none, some "car1", none⟩
        (FetchOracle.const 7) 0 PollState.initial).callsMade) ∧
    ("GN" ≠ "" ∧ ∃ u, normalize_car_type (some "GN") = some u ∧
      u ∉ EV_CAPABLE_CAR_TYPES) := by
  refine ⟨?_, ?_, ?_, ?_⟩
  · exact (ev_capability_defaults_true
      ⟨"id", "sec", "uri", some "tok", none, some "car1", none⟩
      (FetchOracle.const 7) 0 PollState.initial).1 none rfl
  · exact (ev_capability_defaults_true
      ⟨"id", "sec", "uri", some "tok", none, some "car1", none⟩
      (FetchOracle.const 7) 0 PollState.initial).2.1 rfl
  · exact (ev_capability_defaults_true
      ⟨"id", "sec", "uri", some "tok", none, some "car1", none⟩
      (FetchOracle.const 7) 0 PollState.initial).2.2.2.1 rfl (by decide)
      (by decide) (by decide) (Or.inl rfl) (Or.inl rfl)
  · exact (ev_capability_defaults_true
      ⟨"id", "sec", "uri", some "tok", none, some "car1", none⟩
      (FetchOracle.const 7) 0 PollState.initial).2.2.2.2.1 "GN" (by decide)

end Bluelink
